import Mathlib

/-! Verification of ngx-scanner: the continuous-scan stream adapter and the device and
session lifecycle.

A shallow embedding of

* `src/esm2022/lib/browser-multi-format-continuous-reader.mjs`
  (`BrowserMultiFormatContinuousReader`: `getScannerControls`, `scanFromDeviceObservable`),
* `src/esm2022/lib/zxing-scanner.component.mjs`
  (`ZXingScannerComponent`: the `device`, `enable` and `formats` setters, `setDevice`,
  `scanStart`, `scanStop`, `scanFromDevice`, the decode handlers, `autostartScanner`,
  `askForPermission`, `handlePermissionException`, `_reset`, `restart`, and `init` with its
  continuations).

JavaScript objects live in one explicit state record: the component fields, the code reader
instances it has created, the scan sessions those readers have opened, and an ordered log of
every externally visible effect (calls into the decode collaborator, notifications pushed by a
session stream, values emitted on the component outputs, console output).

An `async` function is split at its `await`: the part that runs synchronously when the function
is called (`..._begin`, or the plain name when nothing follows the await) and the continuation
that runs when the awaited promise settles (`..._resume`, `..._after...`).  A function that can
throw returns a `Ret`: the state reached and the error thrown, if any.
-/

namespace NgxScanner

/-! ## Values -/

/-- A JavaScript error as the code reads it: `error.name` and `error.message`
(the decode callback is typed `(result?: Result, error?: Exception)`, and `message` is a
string on `Exception`). -/
structure JsError where
  name : String
  message : String
  deriving DecidableEq, Repr

/-- A decoded symbol (`Result` of the decode library); the component only reads `getText()`. -/
structure Result where
  text : String
  deriving DecidableEq, Repr

/-- The value type of the session stream (`ResultAndError`): `{ result }`, `{ error }`, or the
empty object `{}` the `BehaviorSubject` is created with. -/
structure ResultAndError where
  result : Option Result
  error : Option JsError
  deriving DecidableEq, Repr

/-- A video input device (`MediaDeviceInfo`): the code reads `deviceId` and `label`. -/
structure MediaDeviceInfo where
  deviceId : String
  label : String
  deriving DecidableEq, Repr

/-- What a stream pushes to an observer. -/
inductive Notification where
  | next (v : ResultAndError)
  | error (e : JsError)
  | complete
  deriving DecidableEq, Repr

/-- The RxJS `BehaviorSubject` created at line 24 (`scan$`), reduced to the fields its methods
read and write: the replayed `_value`, `isStopped`, `thrownError` (set exactly when `hasError`),
and whether the subscriber registered by `scanFromDevice` (the only subscriber a session stream
ever gets) is still among its observers. -/
structure BehaviorSubject where
  value : ResultAndError
  isStopped : Bool
  thrownError : Option JsError
  observed : Bool
  deriving DecidableEq, Repr

/-- Settlement state of the `decodeFromVideoDevice` promise of a session. -/
inductive Phase where
  | pending
  | started
  | failed
  deriving DecidableEq, Repr

/-- The control handle the decode collaborator resolves with (`ctrls`). Besides `stop()` the
code only asks whether `switchTorch` is defined (line 519). -/
structure IScannerControls where
  switchTorch : Bool
  deriving DecidableEq, Repr

/-- One call of `scanFromDeviceObservable`: the reader it was called on (`this`), the device,
the stream `scan$`, and whether `ctrls` has been received. The wrapped handle built at lines
50-56 closes over exactly this record, so a wrapped handle is identified by the index of its
session. -/
structure Session where
  reader : Nat
  deviceId : String
  scan : BehaviorSubject
  phase : Phase
  switchTorch : Bool
  deriving DecidableEq, Repr

/-- Values emitted on the component outputs (the `EventEmitter`s of lines 191-202). -/
inductive Output where
  | autostarted
  | autostarting (state : Bool)
  | torchCompatible (b : Bool)
  | scanSuccess (text : String)
  | scanFailure (reason : Option JsError)
  | scanError (error : JsError)
  | scanComplete (result : Option Result)
  | camerasFound (devices : List MediaDeviceInfo)
  | camerasNotFound (error : Option JsError)
  | permissionResponse (hasPermission : Option Bool)
  | permissionResponseError (error : JsError)
  | hasDevices (b : Option Bool)
  | deviceChange (device : Option MediaDeviceInfo)
  deriving DecidableEq, Repr

/-- An entry of the registered formats as `getBarcodeFormatOrFail` can produce it: a
`BarcodeFormat` number, a string (what the enum object holds under a numeric key), or
`undefined`. -/
inductive FormatEntry where
  | format (n : Nat)
  | name (s : String)
  | undefined
  deriving DecidableEq, Repr

/-- Externally visible effects, in the order they happen. -/
inductive Action where
  | decodeFromVideoDevice (session : Nat) (deviceId : String)
  | ctrlsStop (session : Nat)
  | stream (session : Nat) (n : Notification)
  | cleanVideoSource
  | releaseAllStreams
  | getUserMedia
  | listVideoInputDevices
  | terminateStream
  | setHints (reader : Nat)
  | emit (o : Output)
  | consoleWarn (msg : String)
  | consoleError (msg : String)
  | unhandledRejection (e : JsError)
  deriving DecidableEq, Repr

/-- The component together with the objects it reaches.

* `hasPermission`: `none` stands for `undefined`/`null` (the code only tests truthiness and
  passes the value on), `some b` for the boolean `b`;
* `_codeReader`: index into `readers` of the current `BrowserMultiFormatContinuousReader`;
* `_scanSubscription`: the subscription object, identified by the session whose stream it
  subscribed to;
* `readers[r]`: the field `scannerControls` of reader `r` (the wrapped handle of a session);
* `scanErrorObserved`: `scanError.observed`, whether the host listens on `scanError`;
* `permissionResponseStopped`: whether `permissionResponse.error(...)` has been called;
* `hasNavigator`, `isMediaDevicesSupported`: the environment facts computed at lines 209-210;
* `formats`: the registered formats, `hints.get(DecodeHintType.POSSIBLE_FORMATS)`. -/
structure ZXingScannerComponent where
  _ready : Bool
  _enabled : Bool
  _isAutostarting : Bool
  autostart : Bool
  hasPermission : Option Bool
  _device : Option MediaDeviceInfo
  _devicePreStart : Option MediaDeviceInfo
  _codeReader : Option Nat
  _scanSubscription : Option Nat
  scanErrorObserved : Bool
  permissionResponseStopped : Bool
  hasNavigator : Bool
  isMediaDevicesSupported : Bool
  formats : List FormatEntry
  readers : List (Option Nat)
  sessions : List Session
  log : List Action
  deriving DecidableEq, Repr

/-- Outcome of a call that may throw: the state reached and the error thrown, if any. -/
structure Ret where
  state : ZXingScannerComponent
  thrown : Option JsError
  deriving DecidableEq, Repr

/-! ## Small helpers -/

/-- Append effects to the log. -/
def ZXingScannerComponent.record (w : ZXingScannerComponent) (as : List Action) :
    ZXingScannerComponent :=
  { w with log := w.log ++ as }

/-- The field `scannerControls` of reader `rid` (`none` when undefined). -/
def ZXingScannerComponent.scannerControls (w : ZXingScannerComponent) (rid : Nat) : Option Nat :=
  match w.readers[rid]? with
  | some c => c
  | none => none

/-- Scan for a substring from every start position (`String.prototype.includes`), on characters. -/
def includesChars : List Char → List Char → Bool
  | [], sub => sub.isEmpty
  | c :: cs, sub => sub.isPrefixOf (c :: cs) || includesChars cs sub

/-- The test `s.includes(sub)`. -/
def includes (s sub : String) : Bool :=
  includesChars s.data sub.data

/-- The names `NotFoundException.name`, `ChecksumException.name`, `FormatException.name` of the
decode library classes imported at line 1. -/
def NotFoundException_name : String := "NotFoundException"

/-- See `NotFoundException_name`. -/
def ChecksumException_name : String := "ChecksumException"

/-- See `NotFoundException_name`. -/
def FormatException_name : String := "FormatException"

/-- The condition of lines 34-40 of the reader: the errors on which the stream must not stop. -/
def isBenign (error : JsError) : Bool :=
  error.name == NotFoundException_name ||
    error.name == ChecksumException_name ||
    error.name == FormatException_name ||
    includes error.message "No MultiFormat Readers were able to detect the code."

/-- The `TypeError` raised by `this.scannerControls.stop()` when `scannerControls` is undefined,
with the message V8 gives it. No branch of the code reads the message. -/
def undefinedStop : JsError :=
  ⟨"TypeError", "Cannot read properties of undefined (reading 'stop')"⟩

/-- The error thrown by `getScannerControls` (line 13). -/
def noScanningRunning : JsError :=
  ⟨"Error", "No scanning is running at the time."⟩

/-! ## Component: decode handlers (lines 393-421, 525-540) -/

/-- Lines 393-395: `this.scanSuccess.next(result.getText())`. -/
def dispatchScanSuccess (w : ZXingScannerComponent) (result : Result) : ZXingScannerComponent :=
  w.record [.emit (.scanSuccess result.text)]

/-- Lines 399-401: `this.scanFailure.next(reason)`. -/
def dispatchScanFailure (w : ZXingScannerComponent) (reason : Option JsError) :
    ZXingScannerComponent :=
  w.record [.emit (.scanFailure reason)]

/-- Lines 407-413: log when nobody listens on `scanError`, then emit the error. -/
def dispatchScanError (w : ZXingScannerComponent) (error : JsError) : ZXingScannerComponent :=
  let w1 :=
    if !w.scanErrorObserved then
      w.record [.consoleError ("zxing scanner component: " ++ error.name),
        .consoleWarn "Use the `(scanError)` property to handle errors like this!"]
    else w
  w1.record [.emit (.scanError error)]

/-- Lines 419-421: `this.scanComplete.next(result)`. -/
def dispatchScanComplete (w : ZXingScannerComponent) (result : Option Result) :
    ZXingScannerComponent :=
  w.record [.emit (.scanComplete result)]

/-- Lines 525-528. -/
def _onDecodeError (w : ZXingScannerComponent) (err : JsError) : ZXingScannerComponent :=
  dispatchScanError w err

/-- Lines 532-540. -/
def _onDecodeResult (w : ZXingScannerComponent) (result : Option Result)
    (error : Option JsError) : ZXingScannerComponent :=
  let w1 :=
    match result with
    | some r => dispatchScanSuccess w r
    | none => dispatchScanFailure w error
  dispatchScanComplete w1 result

/-! ## The session stream `scan$`

`next`, `error` and `complete` of the RxJS subject: nothing is pushed once the subject is
stopped; `error` and `complete` stop it and drop its observers. The observer, when present, is
the one registered at line 514: `next` runs `_onDecodeResult`, `error` runs `_onDecodeError`,
`complete` does nothing. -/

/-- The call `scan$.next(v)` on the stream of session `sid`. -/
def scan_next (w : ZXingScannerComponent) (sid : Nat) (v : ResultAndError) :
    ZXingScannerComponent :=
  match w.sessions[sid]? with
  | none => w
  | some s =>
    let w1 := { w with sessions := w.sessions.set sid { s with scan := { s.scan with value := v } } }
    if s.scan.isStopped then w1
    else
      let w2 := w1.record [.stream sid (.next v)]
      if s.scan.observed then _onDecodeResult w2 v.result v.error else w2

/-- The call `scan$.error(e)` on the stream of session `sid`. -/
def scan_error (w : ZXingScannerComponent) (sid : Nat) (e : JsError) : ZXingScannerComponent :=
  match w.sessions[sid]? with
  | none => w
  | some s =>
    if s.scan.isStopped then w
    else
      let scan1 : BehaviorSubject := { s.scan with isStopped := true, thrownError := some e, observed := false }
      let w1 := { w with sessions := w.sessions.set sid { s with scan := scan1 } }
      let w2 := w1.record [.stream sid (.error e)]
      if s.scan.observed then _onDecodeError w2 e else w2

/-- The call `scan$.complete()` on the stream of session `sid`. -/
def scan_complete (w : ZXingScannerComponent) (sid : Nat) : ZXingScannerComponent :=
  match w.sessions[sid]? with
  | none => w
  | some s =>
    if s.scan.isStopped then w
    else
      let scan1 : BehaviorSubject := { s.scan with isStopped := true, observed := false }
      let w1 := { w with sessions := w.sessions.set sid { s with scan := scan1 } }
      w1.record [.stream sid .complete]

/-! ## Reader: `BrowserMultiFormatContinuousReader` -/

/-- Lines 11-16: the stored handle, or the error of line 13. -/
def getScannerControls (w : ZXingScannerComponent) (rid : Nat) : Except JsError Nat :=
  match w.scannerControls rid with
  | some h => .ok h
  | none => .error noScanningRunning

/-- Lines 52-55: `stop()` of the wrapped handle of session `h`:
`ctrls.stop(); scan$.complete();`. -/
def wrappedStop (w : ZXingScannerComponent) (h : Nat) : ZXingScannerComponent :=
  scan_complete (w.record [.ctrlsStop h]) h

/-- Lines 27-49: the per-attempt callback registered by the call that opened session `sid`. -/
def decodeCallback (w : ZXingScannerComponent) (sid : Nat) (result : Option Result)
    (error : Option JsError) : Ret :=
  match w.sessions[sid]? with
  | none => ⟨w, none⟩
  | some s =>
    match error with
    | none => ⟨scan_next w sid ⟨result, none⟩, none⟩
    | some e =>
      if isBenign e then ⟨scan_next w sid ⟨none, some e⟩, none⟩
      else
        let w1 := scan_error w sid e
        match w1.scannerControls s.reader with
        | none => ⟨w1, some undefinedStop⟩
        | some h =>
          let w2 := wrappedStop w1 h
          ⟨{ w2 with readers := w2.readers.set s.reader none }, none⟩

/-- Lines 24-27, up to the `await`: create `scan$` with the initial value `{}` and call
`decodeFromVideoDevice`, registering the callback. The new session gets the next free index. -/
def scanFromDeviceObservable_begin (w : ZXingScannerComponent) (rid : Nat) (deviceId : String) :
    ZXingScannerComponent :=
  { w with
    sessions := w.sessions ++ [⟨rid, deviceId, ⟨⟨none, none⟩, false, none, false⟩, .pending, false⟩],
    log := w.log ++ [.decodeFromVideoDevice w.sessions.length deviceId] }

/-- Lines 50-63, after the `await`: on success store the wrapped handle; on failure (the
capability threw or rejected with `e`) run the `catch` block. The returned observable is the
stream of session `sid`. -/
def scanFromDeviceObservable_resume (w : ZXingScannerComponent) (sid : Nat)
    (r : Except JsError IScannerControls) : ZXingScannerComponent :=
  match w.sessions[sid]? with
  | none => w
  | some s =>
    match r with
    | .ok ctrls =>
      { w with
        sessions := w.sessions.set sid { s with phase := .started, switchTorch := ctrls.switchTorch },
        readers := w.readers.set s.reader (some sid) }
    | .error e =>
      let w0 := { w with sessions := w.sessions.set sid { s with phase := .failed } }
      let w1 := scan_error w0 sid e
      let w2 :=
        match w1.scannerControls s.reader with
        | some h => wrappedStop w1 h
        | none => w1
      { w2 with readers := w2.readers.set s.reader none }

/-! ## Component: `ZXingScannerComponent` -/

/-- Lines 172-211: the fields the constructor leaves behind (no reader, no session, nothing
selected, enabled, autostart on, not ready, the formats set to `[BarcodeFormat.QR_CODE]`, which
is 11 in the enum of the decode library), in a browser that has `navigator.mediaDevices`. -/
def constructor : ZXingScannerComponent :=
  { _ready := false, _enabled := true, _isAutostarting := false, autostart := true,
    hasPermission := none, _device := none, _devicePreStart := none, _codeReader := none,
    _scanSubscription := none, scanErrorObserved := false, permissionResponseStopped := false,
    hasNavigator := true, isMediaDevicesSupported := true, formats := [.format 11],
    readers := [], sessions := [], log := [] }

/-- Lines 488-497: the current reader, created when there is none. -/
def getCodeReader (w : ZXingScannerComponent) : ZXingScannerComponent × Nat :=
  match w._codeReader with
  | some rid => (w, rid)
  | none => ({ w with readers := w.readers ++ [none], _codeReader := some w.readers.length },
      w.readers.length)

/-- Lines 503-506 up to the `await`: get the reader and call `scanFromDeviceObservable`. -/
def scanFromDevice_begin (w : ZXingScannerComponent) (deviceId : String) : ZXingScannerComponent :=
  scanFromDeviceObservable_begin (getCodeReader w).1 (getCodeReader w).2 deviceId

/-- The call `scanStream.subscribe(next, error, complete)` of line 514 on the stream of session
`sid`: an errored subject hands its error to the new observer, a completed one completes it, and
an open one registers it and replays the current value to `next`. -/
def subscribe (w : ZXingScannerComponent) (sid : Nat) : ZXingScannerComponent :=
  match w.sessions[sid]? with
  | none => w
  | some s =>
    match s.scan.thrownError with
    | some e => _onDecodeError w e
    | none =>
      if s.scan.isStopped then w
      else
        let w1 := { w with sessions := w.sessions.set sid { s with scan := { s.scan with observed := true } } }
        _onDecodeResult w1 s.scan.value.result s.scan.value.error

/-- Whether `typeof controls.switchTorch` is not `undefined` for the wrapped handle `h`
(it spreads `ctrls`, lines 50-51). -/
def hasTorchControl (w : ZXingScannerComponent) (h : Nat) : Bool :=
  match w.sessions[h]? with
  | some s => s.switchTorch
  | none => false

/-- Lines 506-520, after the `await`: the reader finishes `scanFromDeviceObservable` for session
`sid` with the settlement `r` of `decodeFromVideoDevice`, then the component subscribes and
reports torch support. -/
def scanFromDevice_resume (w : ZXingScannerComponent) (sid : Nat)
    (r : Except JsError IScannerControls) : Ret :=
  let w1 := scanFromDeviceObservable_resume w sid r
  match w1.sessions[sid]? with
  | none => ⟨w1, none⟩
  | some s =>
    let w2 := { subscribe w1 sid with _scanSubscription := some sid }
    if s.scan.thrownError.isSome || s.scan.isStopped then ⟨w2, none⟩
    else
      match getScannerControls w2 s.reader with
      | .error e => ⟨w2, some e⟩
      | .ok h => ⟨w2.record [.emit (.torchCompatible (hasTorchControl w2 h))], none⟩

/-- The call `subscription.unsubscribe()` for the subscription on the stream of session `sub`. -/
def unsubscribe (w : ZXingScannerComponent) (sub : Nat) : ZXingScannerComponent :=
  match w.sessions[sub]? with
  | none => w
  | some s =>
    { w with sessions := w.sessions.set sub { s with scan := { s.scan with observed := false } } }

/-- Lines 327-334. The optional chain `this.codeReader?.getScannerControls().stop()` is skipped
as a whole when there is no reader, and throws when the reader has no stored handle. -/
def scanStop (w : ZXingScannerComponent) : Ret :=
  match w._scanSubscription with
  | none => ⟨w.record [.emit (.torchCompatible false)], none⟩
  | some sub =>
    let r : Ret :=
      match w._codeReader with
      | none => ⟨w, none⟩
      | some rid =>
        match getScannerControls w rid with
        | .error e => ⟨w, some e⟩
        | .ok h => ⟨wrappedStop w h, none⟩
    match r.thrown with
    | some e => ⟨r.state, some e⟩
    | none =>
      ⟨({ unsubscribe r.state sub with _scanSubscription := none }).record
        [.emit (.torchCompatible false)], none⟩

/-- Lines 565-578 up to the `await` of line 576 (nothing follows it). -/
def setDevice (w : ZXingScannerComponent) (device : Option MediaDeviceInfo) : Ret :=
  let r := scanStop w
  match r.thrown with
  | some e => ⟨r.state, some e⟩
  | none =>
    let w1 := { r.state with _device := device }
    match device with
    | none => ⟨w1.record [.cleanVideoSource], none⟩
    | some d =>
      if w1._enabled then ⟨scanFromDevice_begin w1 d.deviceId, none⟩ else ⟨w1, none⟩

/-- Lines 308-310: `device?.deviceId === this._device?.deviceId`. -/
def isCurrentDevice (w : ZXingScannerComponent) (device : Option MediaDeviceInfo) : Bool :=
  device.map (·.deviceId) == w._device.map (·.deviceId)

/-- Lines 16-42, the `device` setter. `setDevice` is called without `await`, so an error thrown
inside it surfaces as an unhandled rejection, not as an exception of the setter. -/
def set_device (w : ZXingScannerComponent) (device : Option MediaDeviceInfo) :
    ZXingScannerComponent :=
  if !w._ready then { w with _devicePreStart := device }
  else if w._isAutostarting then
    w.record [.consoleWarn "Avoid setting a device during auto-start."]
  else if isCurrentDevice w device then
    w.record [.consoleWarn "Setting the same device is not allowed."]
  else if w.hasPermission != some true then
    w.record [.consoleWarn
      "Permissions not set yet, waiting for them to be set to apply device change."]
  else
    match (setDevice w device).thrown with
    | none => (setDevice w device).state
    | some e => (setDevice w device).state.record [.unhandledRejection e]

/-- Lines 544-554: returns the previously selected device. -/
def _reset (w : ZXingScannerComponent) : ZXingScannerComponent × Option MediaDeviceInfo :=
  match w._codeReader with
  | none => (w, none)
  | some _ => (set_device { w with _codeReader := none } none, w._device)

/-- Lines 558-561. -/
def reset (w : ZXingScannerComponent) : ZXingScannerComponent :=
  (_reset w).1.record [.emit (.deviceChange none)]

/-- Lines 350-358. -/
def restart (w : ZXingScannerComponent) : ZXingScannerComponent :=
  let r := _reset { w with _codeReader := none }
  match r.2 with
  | none => r.1
  | some prevDevice => set_device r.1 (some prevDevice)

/-! ## Effects of the decode handlers -/

/-- The outputs `_onDecodeResult` produces (lines 532-540): success or failure, then complete. -/
def decodeResultOutputs (result : Option Result) (error : Option JsError) : List Action :=
  match result with
  | some r => [.emit (.scanSuccess r.text), .emit (.scanComplete (some r))]
  | none => [.emit (.scanFailure error), .emit (.scanComplete none)]

/-- The effects `_onDecodeError` produces (lines 407-413, 525-528), given `scanError.observed`. -/
def decodeErrorOutputs (observed : Bool) (error : JsError) : List Action :=
  (if observed then []
    else [.consoleError ("zxing scanner component: " ++ error.name),
      .consoleWarn "Use the `(scanError)` property to handle errors like this!"]) ++
    [.emit (.scanError error)]

/-! ## Reading the log -/

/-- The notifications pushed by the stream of session `sid`, in order. -/
def streamOf (sid : Nat) (log : List Action) : List Notification :=
  log.filterMap fun a =>
    match a with
    | .stream s n => if s = sid then some n else none
    | _ => none

/-- The decode collaborator invoking the callback of session `sid` once per attempt, in order.
An attempt that makes the callback throw does not prevent the collaborator from calling again. -/
def runCallbacks (w : ZXingScannerComponent) (sid : Nat) :
    List (Option Result × Option JsError) → ZXingScannerComponent
  | [] => w
  | (result, error) :: rest => runCallbacks (decodeCallback w sid result error).state sid rest

/-- Whether a decode attempt carries an error outside the benign kinds. -/
def isFatal (error : Option JsError) : Bool :=
  match error with
  | none => false
  | some e => !isBenign e

/-- The states in which `scanStop` does not throw: no subscription is held, or there is no code
reader, or the code reader has a control handle stored. -/
def canStop (w : ZXingScannerComponent) : Bool :=
  match w._scanSubscription, w._codeReader with
  | some _, some rid => (w.scannerControls rid).isSome
  | _, _ => true

/-- What `setDevice` does after `scanStop` (lines 570-577): unbind the display target when the
device is cleared, request a start when enabled and a device is given. -/
def afterStop (w : ZXingScannerComponent) (d : Option MediaDeviceInfo) : List Action :=
  match d with
  | none => [.cleanVideoSource]
  | some dev => if w._enabled then [.decodeFromVideoDevice w.sessions.length dev.deviceId] else []

/-! ## The specification of the stream, in its own words

Section 4.1 of the specification: no error gives a success event, a benign error gives a
benign-miss event, any other error is a terminal fault and nothing is accepted after it. -/

/-- The notification the specification assigns to a single decode attempt. -/
def eventOf (result : Option Result) (error : Option JsError) : Notification :=
  match error with
  | none => .next ⟨result, none⟩
  | some e => if isBenign e then .next ⟨none, some e⟩ else .error e

/-- The notifications the specification assigns to a sequence of decode attempts: one per
attempt, in order, up to and including the first fatal one. -/
def expectedEvents : List (Option Result × Option JsError) → List Notification
  | [] => []
  | (result, none) :: rest => .next ⟨result, none⟩ :: expectedEvents rest
  | (_, some e) :: rest =>
    if isBenign e then .next ⟨none, some e⟩ :: expectedEvents rest else [.error e]

/-! ## Concrete scenario

A component that is ready with permission granted gets device A through the `device` input,
the start succeeds, and the component subscribes. -/

/-- Device A. -/
def camA : MediaDeviceInfo := ⟨"A", "Front Camera"⟩

/-- Device B. -/
def camB : MediaDeviceInfo := ⟨"B", "Back Camera"⟩

/-- A benign decode error. -/
def notFound : JsError :=
  ⟨"NotFoundException", "No MultiFormat Readers were able to detect the code."⟩

/-- A decode error outside the benign kinds. -/
def deviceLost : JsError := ⟨"NotReadableError", "Could not start video source"⟩

/-- The component once initialised, with permission granted and nothing selected. -/
def readyState : ZXingScannerComponent :=
  { constructor with _ready := true, hasPermission := some true }

/-- Device A has been set; the start of session 0 is pending. -/
def pendingA : ZXingScannerComponent := set_device readyState (some camA)

/-- The record of session 0 while its start is pending. -/
def sessionPendingA : Session := ⟨0, "A", ⟨⟨none, none⟩, false, none, false⟩, .pending, false⟩

/-- Session 0 has started and the component has subscribed to its stream. -/
def scanningA : ZXingScannerComponent := (scanFromDevice_resume pendingA 0 (.ok ⟨false⟩)).state

/-- The record of session 0 in `scanningA`. -/
def sessionA : Session := ⟨0, "A", ⟨⟨none, none⟩, false, none, true⟩, .started, false⟩

/-- The component after `scanStop()` in `scanningA`. -/
def stoppedA : ZXingScannerComponent := (scanStop scanningA).state

/-- A fatal decode error reaches the callback of session 0 while its start is still pending. -/
def faultedBeforeStart : ZXingScannerComponent :=
  (decodeCallback pendingA 0 none (some deviceLost)).state

/-- The state in which `_reset` assigns the `device` input (line 552): scanning on A, with
`_codeReader` already cleared by line 549. -/
def readerDropped : ZXingScannerComponent := { scanningA with _codeReader := none }

/-! ## Component: autostart device selection (lines 378-387) -/

/-- The alternatives of the regular expression of line 379. -/
def rearLabelPatterns : List String :=
  ["back", "trás", "rear", "traseira", "environment", "ambiente"]

/-- Case folding of an ignore-case regular expression without the `u` flag (ECMAScript
`Canonicalize`: upper-case a single code unit, never mapping a non-ASCII character to an ASCII
one), on the characters that can equal a character of the pattern: the ASCII letters and
`á`/`Á`. Every other character is left as it is; none of them folds to a pattern character. -/
def canonicalize (c : Char) : Char :=
  if c = 'á' then 'Á' else c.toUpper

/-- Line 379, `matcher`: the label contains one of the alternatives, ignoring case. The literal
is evaluated anew at each call, so the `g` flag carries no position from one call to the next. -/
def matcher (device : MediaDeviceInfo) : Bool :=
  rearLabelPatterns.any fun p =>
    includesChars (device.label.data.map canonicalize) (p.data.map canonicalize)

/-- Line 381: `devices.find(matcher) || devices.pop()`. -/
def autostartDevice (devices : List MediaDeviceInfo) : Option MediaDeviceInfo :=
  match devices.find? matcher with
  | some device => some device
  | none => devices.getLast?

/-- The error thrown at line 383. -/
def noInputDevices : JsError :=
  ⟨"Error", "Impossible to autostart, no input devices available."⟩

/-- Lines 378-385 up to the `await` of `setDevice`. -/
def autostartScanner_begin (w : ZXingScannerComponent) (devices : List MediaDeviceInfo) : Ret :=
  match autostartDevice devices with
  | none => ⟨w, some noInputDevices⟩
  | some device => setDevice w (some device)

/-- Lines 385-386 after the `await`: `setDevice(device)` has completed, either at once (`start`
is `none`: nothing was started because scanning is disabled) or when the start of session
`sid` has settled with `r` and `scanFromDevice` has run its continuation. If that threw, the
error propagates and `deviceChange` is not reached. -/
def autostartScanner_resume (w : ZXingScannerComponent) (device : MediaDeviceInfo)
    (start : Option (Nat × Except JsError IScannerControls)) : Ret :=
  let r1 : Ret :=
    match start with
    | none => ⟨w, none⟩
    | some (sid, r) => scanFromDevice_resume w sid r
  match r1.thrown with
  | some e => ⟨r1.state, some e⟩
  | none => ⟨r1.state.record [.emit (.deviceChange (some device))], none⟩

/-! ## Component: permission (lines 425-476, 582-585) -/

/-- Lines 582-585. `permissionResponse.next` delivers nothing once the emitter has been
terminated by `error`. -/
def setPermission (w : ZXingScannerComponent) (hasPermission : Option Bool) :
    ZXingScannerComponent :=
  let w1 := { w with hasPermission := hasPermission }
  if w1.permissionResponseStopped then w1
  else w1.record [.emit (.permissionResponse hasPermission)]

/-- The call `this.permissionResponse.error(err)` of line 474. -/
def permissionResponse_error (w : ZXingScannerComponent) (err : JsError) :
    ZXingScannerComponent :=
  if w.permissionResponseStopped then w
  else { w with permissionResponseStopped := true }.record [.emit (.permissionResponseError err)]

/-- Lines 425-476. Returns the state and the permission value returned. The console lines keep
their text arguments, joined by a blank. -/
def handlePermissionException (w : ZXingScannerComponent) (err : JsError) :
    ZXingScannerComponent × Option Bool :=
  let w0 := w.record [.consoleError "@zxing/ngx-scanner Error when asking for permission."]
  let classified : ZXingScannerComponent × Option Bool :=
    if err.name == "NotSupportedError" then
      (w0.record [.consoleWarn ("@zxing/ngx-scanner " ++ err.message),
        .emit (.hasDevices none)], none)
    else if err.name == "NotAllowedError" then
      (w0.record [.consoleWarn ("@zxing/ngx-scanner " ++ err.message),
        .emit (.hasDevices (some true))], some false)
    else if err.name == "NotFoundError" then
      (w0.record [.consoleWarn ("@zxing/ngx-scanner " ++ err.message),
        .emit (.hasDevices (some false)), .emit (.camerasNotFound (some err))], none)
    else if err.name == "NotReadableError" then
      (w0.record [.consoleWarn ("@zxing/ngx-scanner " ++
          "Couldn't read the device(s)'s stream, it's probably in use by another app."),
        .emit (.hasDevices (some false)), .emit (.camerasNotFound (some err))], none)
    else
      (w0.record [.consoleWarn ("@zxing/ngx-scanner " ++
          "I was not able to define if I have permissions for camera or not.")], none)
  (permissionResponse_error (setPermission classified.1 classified.2) err, classified.2)

/-- The console line, the emissions and the permission value of each arm of the `switch` of
lines 429-471. -/
def permissionEffects (err : JsError) : List Action × Option Bool :=
  if err.name == "NotSupportedError" then
    ([.consoleWarn ("@zxing/ngx-scanner " ++ err.message), .emit (.hasDevices none)], none)
  else if err.name == "NotAllowedError" then
    ([.consoleWarn ("@zxing/ngx-scanner " ++ err.message), .emit (.hasDevices (some true))],
      some false)
  else if err.name == "NotFoundError" then
    ([.consoleWarn ("@zxing/ngx-scanner " ++ err.message), .emit (.hasDevices (some false)),
      .emit (.camerasNotFound (some err))], none)
  else if err.name == "NotReadableError" then
    ([.consoleWarn ("@zxing/ngx-scanner " ++
        "Couldn't read the device(s)'s stream, it's probably in use by another app."),
      .emit (.hasDevices (some false)), .emit (.camerasNotFound (some err))], none)
  else
    ([.consoleWarn ("@zxing/ngx-scanner " ++
        "I was not able to define if I have permissions for camera or not.")], none)

/-! ## Component: initialisation, up to the first suspension (lines 215-304) -/

/-- Lines 102-105, the `isAutostarting` setter. -/
def set_isAutostarting (w : ZXingScannerComponent) (state : Bool) : ZXingScannerComponent :=
  { w with _isAutostarting := state }.record [.emit (.autostarting state)]

/-- Lines 362-364 up to the `await`: the device list is requested. -/
def updateVideoInputDevices_begin (w : ZXingScannerComponent) : ZXingScannerComponent :=
  w.record [.listVideoInputDevices]

/-- Lines 273-281. Neither `updateVideoInputDevices` nor `setDevice` is awaited. -/
def initAutostartOff (w : ZXingScannerComponent) : ZXingScannerComponent :=
  let w1 := updateVideoInputDevices_begin (set_isAutostarting w false)
  match w1._device, w1._devicePreStart with
  | some _, some pre =>
    match (setDevice w1 (some pre)).thrown with
    | none => (setDevice w1 (some pre)).state
    | some e => (setDevice w1 (some pre)).state.record [.unhandledRejection e]
  | _, _ => w1

/-- Lines 215-230 up to the first `await` or `return`: without a navigator or without media
devices the permission is set to `null`; otherwise a video stream is requested. -/
def askForPermission_begin (w : ZXingScannerComponent) : ZXingScannerComponent :=
  if !w.hasNavigator then
    setPermission
      (w.record [.consoleError "@zxing/ngx-scanner Can't ask permission, navigator is not present."])
      none
  else if !w.isMediaDevicesSupported then
    setPermission
      (w.record [.consoleError "@zxing/ngx-scanner Can't get user media, this is not supported."])
      none
  else w.record [.getUserMedia]

/-- Lines 286-291 up to the `await` of `askForPermission`. -/
def initAutostartOn_begin (w : ZXingScannerComponent) : ZXingScannerComponent :=
  askForPermission_begin (set_isAutostarting w true)

/-- Lines 258-267 up to the first `await`. With autostart off `init` runs to its end. -/
def init_begin (w : ZXingScannerComponent) : ZXingScannerComponent :=
  if !w.autostart then
    { initAutostartOff (w.record [.consoleWarn
        "Feature 'autostart' disabled. Permissions and devices recovery has to be run manually."])
      with _ready := true }
  else initAutostartOn_begin w

/-! ## Component: enable, manual start (lines 129-143, 338-346) -/

/-- Lines 129-143, the `enable` setter. Neither `scanFromDevice` nor `init` is awaited; the
state returned is the one the setter leaves when it returns. -/
def set_enable (w : ZXingScannerComponent) (enabled : Bool) : ZXingScannerComponent :=
  let w1 := { w with _enabled := enabled }
  if !enabled then (reset w1).record [.releaseAllStreams]
  else
    match w1._device with
    | some device => scanFromDevice_begin w1 device.deviceId
    | none => init_begin w1

/-- The error thrown at line 340. -/
def alreadyScanning : JsError := ⟨"Error", "There is already a scan process running."⟩

/-- The error thrown at line 343. -/
def noDeviceDefined : JsError :=
  ⟨"Error", "No device defined, cannot start scan, please define a device."⟩

/-- Lines 338-346. `scanFromDevice` is not awaited. -/
def scanStart (w : ZXingScannerComponent) : Ret :=
  match w._scanSubscription with
  | some _ => ⟨w, some alreadyScanning⟩
  | none =>
    match w._device with
    | none => ⟨w, some noDeviceDefined⟩
    | some device => ⟨scanFromDevice_begin w device.deviceId, none⟩

/-! ## More of the concrete scenario -/

/-- The first device list of the specification's autostart example. -/
def frontAndBack : List MediaDeviceInfo := [⟨"1", "Front Camera"⟩, ⟨"2", "Back Camera"⟩]

/-- The second device list of the specification's autostart example. -/
def usbAndWebcam : List MediaDeviceInfo := [⟨"1", "USB Cam"⟩, ⟨"2", "Webcam"⟩]

/-- A permission failure: the user denied access. -/
def notAllowed : JsError := ⟨"NotAllowedError", "Permission denied"⟩

/-- A permission failure: no input device attached. -/
def notFoundError : JsError := ⟨"NotFoundError", "Requested device not found"⟩

/-- A permission failure of no recognised kind. -/
def abortError : JsError := ⟨"AbortError", "Starting videoinput failed"⟩

/-! ## Component: initialisation, after the suspensions (lines 230-241, 268, 291-303, 364-372) -/

/-- Lines 230-241 after the `await`: `getUserMedia` has settled. A stream is truthy, its tracks
are stopped by the `finally` block and the permission is set to `true`; a rejection goes to
`handlePermissionException`, whose value is returned, and the `finally` block has no stream to
terminate. Returns the state and the value `askForPermission` resolves with. -/
def askForPermission_resume (w : ZXingScannerComponent) (r : Except JsError Unit) :
    ZXingScannerComponent × Option Bool :=
  match r with
  | .ok _ => (setPermission (w.record [.terminateStream]) (some true), some true)
  | .error err => handlePermissionException w err

/-- Lines 364-372 after the `await`: the device list has arrived. -/
def updateVideoInputDevices_resume (w : ZXingScannerComponent) (devices : List MediaDeviceInfo) :
    ZXingScannerComponent :=
  let hasDevices := decide (devices.length > 0)
  let w1 := w.record [.emit (.hasDevices (some hasDevices)), .emit (.camerasFound devices)]
  if !hasDevices then w1.record [.emit (.camerasNotFound none)] else w1

/-- Lines 291-303 after the `await` of `askForPermission`, which settled with `asked`. A
rejection is logged and `initAutostartOn` returns; a truthy value requests the device list;
any other value goes straight to lines 302-303. -/
def initAutostartOn_afterPermission (w : ZXingScannerComponent)
    (asked : Except JsError (Option Bool)) : ZXingScannerComponent :=
  match asked with
  | .error _ => w.record [.consoleError "Exception occurred while asking for permission:"]
  | .ok hasPermission =>
    if hasPermission = some true then updateVideoInputDevices_begin w
    else (set_isAutostarting w false).record [.emit .autostarted]

/-- Lines 299-300 after the `await` of `updateVideoInputDevices`: `autostartScanner` runs up to
its own `await`. An error thrown there rejects `initAutostartOn`. -/
def initAutostartOn_afterDevices (w : ZXingScannerComponent) (devices : List MediaDeviceInfo) :
    Ret :=
  autostartScanner_begin (updateVideoInputDevices_resume w devices) devices

/-- Lines 300-303 after the `await` of `setDevice` inside `autostartScanner`: the rest of
`autostartScanner`, then lines 302-303 unless it threw. -/
def initAutostartOn_afterStart (w : ZXingScannerComponent) (device : MediaDeviceInfo)
    (start : Option (Nat × Except JsError IScannerControls)) : Ret :=
  match (autostartScanner_resume w device start).thrown with
  | some e => ⟨(autostartScanner_resume w device start).state, some e⟩
  | none =>
    ⟨(set_isAutostarting (autostartScanner_resume w device start).state false).record
      [.emit .autostarted], none⟩

/-- Line 268, reached when `initAutostartOn` has returned without throwing. -/
def init_end (w : ZXingScannerComponent) : ZXingScannerComponent :=
  { w with _ready := true }

/-! ## Component: formats (lines 60-85, 480-484) -/

/-- The input of the `formats` setter: a plain string (an attribute that is not a binding) or an
array whose items are `BarcodeFormat` numbers or strings. -/
inductive FormatsInput where
  | string (s : String)
  | array (items : List FormatEntry)
  deriving DecidableEq, Repr

/-- The member names of the enum `BarcodeFormat` imported from `@zxing/library` (line 3), in
declaration order; a member's number is its position. -/
def BarcodeFormat_names : List String :=
  ["AZTEC", "CODABAR", "CODE_39", "CODE_93", "CODE_128", "DATA_MATRIX", "EAN_8", "EAN_13", "ITF",
    "MAXICODE", "PDF_417", "QR_CODE", "RSS_14", "RSS_EXPANDED", "UPC_A", "UPC_E",
    "UPC_EAN_EXTENSION"]

/-- The property lookup `BarcodeFormat[key]` on the compiled enum object: a member name gives its
number, the decimal form of a member's number gives its name, anything else `undefined`. -/
def BarcodeFormat (key : String) : FormatEntry :=
  if key ∈ BarcodeFormat_names then .format (BarcodeFormat_names.indexOf key)
  else
    match (List.range BarcodeFormat_names.length).find? (fun n => toString n == key) with
    | some n => .name (BarcodeFormat_names.getD n "")
    | none => .undefined

/-- The code points `String.prototype.trim` removes: the ECMAScript white space (tab, vertical
tab, form feed, space, no-break space, the byte order mark and the space separators of
Unicode) and the line terminators (line feed, carriage return, U+2028, U+2029). -/
def isWhiteSpace (c : Char) : Bool :=
  [0x09, 0x0A, 0x0B, 0x0C, 0x0D, 0x20, 0xA0, 0x1680, 0x2028, 0x2029, 0x202F, 0x205F, 0x3000,
    0xFEFF].contains c.toNat || (0x2000 ≤ c.toNat && c.toNat ≤ 0x200A)

/-- The string method `trim`: white space is removed from both ends. -/
def trim (s : String) : String :=
  ⟨((s.data.dropWhile isWhiteSpace).reverse.dropWhile isWhiteSpace).reverse⟩

/-- The upper-case form of one character, for every character whose upper-case form is ASCII:
the ASCII characters themselves, dotless i (U+0131), long s (U+017F), sharp s (U+00DF, which
gives `SS`) and the ligatures U+FB00 to U+FB06 (`FF`, `FI`, `FL`, `FFI`, `FFL`, `ST`, `ST`).
Every other character is left as it is: like the character itself, its upper-case form holds a
character outside ASCII, so neither is part of a key of `BarcodeFormat`. -/
def upperCaseOf (c : Char) : List Char :=
  if c.toNat = 0x131 then ['I']
  else if c.toNat = 0x17F then ['S']
  else if c.toNat = 0xDF then ['S', 'S']
  else if c.toNat = 0xFB00 then ['F', 'F']
  else if c.toNat = 0xFB01 then ['F', 'I']
  else if c.toNat = 0xFB02 then ['F', 'L']
  else if c.toNat = 0xFB03 then ['F', 'F', 'I']
  else if c.toNat = 0xFB04 then ['F', 'F', 'L']
  else if c.toNat = 0xFB05 then ['S', 'T']
  else if c.toNat = 0xFB06 then ['S', 'T']
  else [c.toUpper]

/-- The string method `toUpperCase`, character by character. -/
def toUpperCase (s : String) : String := ⟨s.data.flatMap upperCaseOf⟩

/-- Lines 480-484. -/
def getBarcodeFormatOrFail (format : FormatEntry) : FormatEntry :=
  match format with
  | .name s => BarcodeFormat (toUpperCase (trim s))
  | other => other

/-- The error thrown at line 62. -/
def invalidFormats : JsError :=
  ⟨"Error", "Invalid formats, make sure the [formats] input is a binding."⟩

/-- Lines 81-85, the `hints` setter, for a map whose possible formats are `formats`. -/
def set_hints (w : ZXingScannerComponent) (formats : List FormatEntry) : ZXingScannerComponent :=
  match w._codeReader with
  | some rid => { w with formats := formats }.record [.setHints rid]
  | none => { w with formats := formats }

/-- Lines 60-71, the `formats` setter. -/
def set_formats (w : ZXingScannerComponent) (input : FormatsInput) : Ret :=
  match input with
  | .string _ => ⟨w, some invalidFormats⟩
  | .array items => ⟨set_hints w (items.map getBarcodeFormatOrFail), none⟩

/-! ## Further scenarios -/

/-- The sessions that have been started and whose underlying handle has not been stopped. -/
def activeSessions (w : ZXingScannerComponent) : List Nat :=
  (List.range w.sessions.length).filter fun sid =>
    match w.sessions[sid]? with
    | some s => s.phase == .started && !(w.log.contains (.ctrlsStop sid))
    | none => false

/-- The `enable` input is set to `true` while scanning on A. -/
def enabledAgain : ZXingScannerComponent := set_enable scanningA true

/-- The start requested by `enabledAgain` has succeeded. -/
def twoSessions : ZXingScannerComponent :=
  (scanFromDevice_resume enabledAgain 1 (.ok ⟨false⟩)).state

/-- A fatal decode error reaches the callback of session 0 while scanning on A. -/
def faultedA : ZXingScannerComponent := (decodeCallback scanningA 0 none (some deviceLost)).state

/-- A component with autostart off whose `device` input received A before `init` ran. -/
def preselectedA : ZXingScannerComponent :=
  set_device { constructor with autostart := false } (some camA)

/-- The state at the first `await` of `init` on a new component with autostart on. -/
def askingPermission : ZXingScannerComponent := init_begin constructor

/-- Permission was refused for lack of a device; a later request is granted. -/
def grantedAfterNotFound : ZXingScannerComponent :=
  (askForPermission_resume
    (askForPermission_begin (askForPermission_resume askingPermission (.error notFoundError)).1)
    (.ok ())).1

/-- A component with autostart off after `init`, the arrival of the device list, and a call of
`askForPermission` that was granted. -/
def manualReady : ZXingScannerComponent :=
  (askForPermission_resume
    (askForPermission_begin
      (updateVideoInputDevices_resume (init_begin { constructor with autostart := false })
        [camA, camB]))
    (.ok ())).1

/-- Device A was then assigned to the `device` input and the start succeeded. -/
def manualScanning : ZXingScannerComponent :=
  (scanFromDevice_resume (set_device manualReady (some camA)) 0 (.ok ⟨false⟩)).state

/-- The component after `scanStop()` in `manualScanning`. -/
def manualStopped : ZXingScannerComponent := (scanStop manualScanning).state

/-- In `manualScanning` a further call of `askForPermission` was refused by the user. -/
def deniedWhileScanning : ZXingScannerComponent :=
  (askForPermission_resume (askForPermission_begin manualScanning) (.error notAllowed)).1

/-- The component after `scanStop()` in `deniedWhileScanning`. -/
def deniedStopped : ZXingScannerComponent := (scanStop deniedWhileScanning).state

/-- The three conditions of the lifecycle: scanning enabled, the selected device, the permission
state. -/
def conditions (w : ZXingScannerComponent) : Bool × Option MediaDeviceInfo × Option Bool :=
  (w._enabled, w._device, w.hasPermission)

/-! ## Lemmas -/

theorem lt_of_getElem?_eq_some {α : Type} {l : List α} {i : Nat} {a : α}
    (h : l[i]? = some a) : i < l.length := by
  by_contra hc
  rw [List.getElem?_eq_none (Nat.le_of_not_lt hc)] at h
  cases h

@[simp] theorem record_log (w : ZXingScannerComponent) (as : List Action) :
    (w.record as).log = w.log ++ as := rfl

@[simp] theorem record_sessions (w : ZXingScannerComponent) (as : List Action) :
    (w.record as).sessions = w.sessions := rfl

@[simp] theorem record_readers (w : ZXingScannerComponent) (as : List Action) :
    (w.record as).readers = w.readers := rfl

theorem _onDecodeResult_eq (w : ZXingScannerComponent) (result : Option Result)
    (error : Option JsError) :
    _onDecodeResult w result error = w.record (decodeResultOutputs result error) := by
  cases result <;>
    simp [_onDecodeResult, dispatchScanSuccess, dispatchScanFailure, dispatchScanComplete,
      decodeResultOutputs, ZXingScannerComponent.record]

theorem _onDecodeError_eq (w : ZXingScannerComponent) (error : JsError) :
    _onDecodeError w error = w.record (decodeErrorOutputs w.scanErrorObserved error) := by
  cases h : w.scanErrorObserved <;>
    simp [_onDecodeError, dispatchScanError, decodeErrorOutputs, ZXingScannerComponent.record, h]

theorem scan_next_eq {w : ZXingScannerComponent} {sid : Nat} {s : Session}
    (hs : w.sessions[sid]? = some s) (v : ResultAndError) :
    scan_next w sid v =
      { w with
        sessions := w.sessions.set sid { s with scan := { s.scan with value := v } },
        log := w.log ++
          (if s.scan.isStopped then []
            else Action.stream sid (.next v) ::
              (if s.scan.observed then decodeResultOutputs v.result v.error else [])) } := by
  simp only [scan_next, hs, _onDecodeResult_eq]
  cases s.scan.isStopped <;> cases s.scan.observed <;> simp [ZXingScannerComponent.record]

theorem scan_error_eq {w : ZXingScannerComponent} {sid : Nat} {s : Session}
    (hs : w.sessions[sid]? = some s) (hopen : s.scan.isStopped = false) (e : JsError) :
    scan_error w sid e =
      { w with
        sessions := w.sessions.set sid
          { s with scan := { s.scan with isStopped := true, thrownError := some e, observed := false } },
        log := w.log ++ Action.stream sid (.error e) ::
          (if s.scan.observed then decodeErrorOutputs w.scanErrorObserved e else []) } := by
  simp only [scan_error, hs, hopen, _onDecodeError_eq]
  cases s.scan.observed <;> simp [ZXingScannerComponent.record]

theorem scan_error_stopped {w : ZXingScannerComponent} {sid : Nat} {s : Session}
    (hs : w.sessions[sid]? = some s) (hst : s.scan.isStopped = true) (e : JsError) :
    scan_error w sid e = w := by
  simp [scan_error, hs, hst]

theorem scan_complete_eq {w : ZXingScannerComponent} {sid : Nat} {s : Session}
    (hs : w.sessions[sid]? = some s) (hopen : s.scan.isStopped = false) :
    scan_complete w sid =
      { w with
        sessions := w.sessions.set sid
          { s with scan := { s.scan with isStopped := true, observed := false } },
        log := w.log ++ [Action.stream sid .complete] } := by
  simp [scan_complete, hs, hopen, ZXingScannerComponent.record]

theorem scan_complete_stopped {w : ZXingScannerComponent} {sid : Nat} {s : Session}
    (hs : w.sessions[sid]? = some s) (hst : s.scan.isStopped = true) :
    scan_complete w sid = w := by
  simp [scan_complete, hs, hst]

theorem streamOf_nil (sid : Nat) : streamOf sid [] = [] := rfl

theorem streamOf_append (sid : Nat) (l₁ l₂ : List Action) :
    streamOf sid (l₁ ++ l₂) = streamOf sid l₁ ++ streamOf sid l₂ := by
  simp [streamOf, List.filterMap_append]

theorem streamOf_decodeResultOutputs (sid : Nat) (r : Option Result) (e : Option JsError) :
    streamOf sid (decodeResultOutputs r e) = [] := by
  cases r <;> simp [streamOf, decodeResultOutputs]

theorem streamOf_decodeErrorOutputs (sid : Nat) (b : Bool) (e : JsError) :
    streamOf sid (decodeErrorOutputs b e) = [] := by
  cases b <;> simp [streamOf, decodeErrorOutputs]

theorem wrappedStop_open {w : ZXingScannerComponent} {h : Nat} {s : Session}
    (hs : w.sessions[h]? = some s) (hopen : s.scan.isStopped = false) :
    wrappedStop w h =
      { w with
        sessions := w.sessions.set h
          { s with scan := { s.scan with isStopped := true, observed := false } },
        log := w.log ++ [Action.ctrlsStop h, Action.stream h .complete] } := by
  have hs' : (w.record [Action.ctrlsStop h]).sessions[h]? = some s := hs
  rw [wrappedStop, scan_complete_eq hs' hopen]
  simp [ZXingScannerComponent.record]

theorem wrappedStop_closed {w : ZXingScannerComponent} {h : Nat}
    (hc : ∀ s, w.sessions[h]? = some s → s.scan.isStopped = true) :
    wrappedStop w h = w.record [Action.ctrlsStop h] := by
  unfold wrappedStop scan_complete
  cases hh : w.sessions[h]? with
  | none => simp [hh]
  | some s => simp [hh, hc s hh]

theorem wrappedStop_spec (w : ZXingScannerComponent) (h : Nat) :
    ∃ rest, (wrappedStop w h).log = w.log ++ Action.ctrlsStop h :: rest ∧
      (wrappedStop w h).readers = w.readers ∧
      ∀ sid s, w.sessions[sid]? = some s → (sid ≠ h ∨ s.scan.isStopped = true) →
        (wrappedStop w h).sessions[sid]? = some s ∧ streamOf sid rest = [] := by
  by_cases hc : ∀ s, w.sessions[h]? = some s → s.scan.isStopped = true
  · refine ⟨[], ?_, ?_, ?_⟩
    · simp [wrappedStop_closed hc]
    · simp [wrappedStop_closed hc]
    · intro sid s hsid _
      simp [wrappedStop_closed hc, hsid, streamOf]
  · push_neg at hc
    obtain ⟨sh, hsh, hopen⟩ := hc
    have hopen' : sh.scan.isStopped = false := by simpa using hopen
    refine ⟨[Action.stream h .complete], ?_, ?_, ?_⟩
    · simp [wrappedStop_open hsh hopen']
    · simp [wrappedStop_open hsh hopen']
    · intro sid s hsid hor
      have hne : sid ≠ h := by
        rcases hor with hne | hst
        · exact hne
        · intro heq
          subst heq
          rw [hsh] at hsid
          cases hsid
          simp [hopen'] at hst
      have hne' : h ≠ sid := fun x => hne x.symm
      simp [wrappedStop_open hsh hopen', List.getElem?_set_ne hne', hsid, streamOf, hne']

theorem decodeCallback_fatal_spec {w : ZXingScannerComponent} {sid : Nat} {s : Session}
    (hs : w.sessions[sid]? = some s) (result : Option Result) (e : JsError)
    (hb : isBenign e = false) :
    ∃ s' rest, (decodeCallback w sid result (some e)).state.sessions[sid]? = some s' ∧
      s'.scan.isStopped = true ∧ streamOf sid rest = [] ∧
      (decodeCallback w sid result (some e)).state.log =
        (scan_error w sid e).log ++ rest := by
  have hw1 : ∃ s1, (scan_error w sid e).sessions[sid]? = some s1 ∧ s1.scan.isStopped = true := by
    cases hst : s.scan.isStopped with
    | true => exact ⟨s, by rw [scan_error_stopped hs hst]; exact hs, hst⟩
    | false =>
      refine ⟨{ s with scan :=
        { s.scan with isStopped := true, thrownError := some e, observed := false } }, ?_, rfl⟩
      rw [scan_error_eq hs hst]
      simp only [List.getElem?_set_self (lt_of_getElem?_eq_some hs)]
  obtain ⟨s1, hs1, hst1⟩ := hw1
  simp only [decodeCallback, hs, hb]
  cases hctl : (scan_error w sid e).scannerControls s.reader with
  | none => exact ⟨s1, [], by simpa using hs1, hst1, rfl, by simp⟩
  | some h =>
    obtain ⟨rest, hlog, -, hsess⟩ := wrappedStop_spec (scan_error w sid e) h
    obtain ⟨hk, hr⟩ := hsess sid s1 hs1 (Or.inr hst1)
    refine ⟨s1, Action.ctrlsStop h :: rest, by simpa using hk, hst1, ?_, by simpa using hlog⟩
    simpa [streamOf] using hr

theorem decodeCallback_spec {w : ZXingScannerComponent} {sid : Nat} {s : Session}
    (hs : w.sessions[sid]? = some s) (result : Option Result) (error : Option JsError) :
    ∃ s' rest, (decodeCallback w sid result error).state.sessions[sid]? = some s' ∧
      s'.scan.isStopped = (s.scan.isStopped || isFatal error) ∧
      streamOf sid rest = [] ∧
      (decodeCallback w sid result error).state.log =
        w.log ++ (if s.scan.isStopped then [] else [Action.stream sid (eventOf result error)])
          ++ rest := by
  have hlt := lt_of_getElem?_eq_some hs
  have hnext : ∀ v : ResultAndError, ∃ s' rest, (scan_next w sid v).sessions[sid]? = some s' ∧
      s'.scan.isStopped = s.scan.isStopped ∧ streamOf sid rest = [] ∧
      (scan_next w sid v).log =
        w.log ++ (if s.scan.isStopped then [] else [Action.stream sid (.next v)]) ++ rest := by
    intro v
    refine ⟨{ s with scan := { s.scan with value := v } },
      if s.scan.isStopped ∨ ¬ s.scan.observed then [] else decodeResultOutputs v.result v.error, ?_⟩
    rw [scan_next_eq hs]
    cases s.scan.isStopped <;> cases s.scan.observed <;>
      simp [hlt, streamOf_decodeResultOutputs, streamOf_nil]
  cases error with
  | none =>
    obtain ⟨s', rest, h1, h2, h3, h4⟩ := hnext ⟨result, none⟩
    exact ⟨s', rest, by simpa [decodeCallback, hs] using h1, by simpa [isFatal] using h2, h3,
      by simpa [decodeCallback, hs, eventOf] using h4⟩
  | some e =>
    cases hb : isBenign e with
    | true =>
      obtain ⟨s', rest, h1, h2, h3, h4⟩ := hnext ⟨none, some e⟩
      exact ⟨s', rest, by simpa [decodeCallback, hs, hb] using h1, by simpa [isFatal, hb] using h2,
        h3, by simpa [decodeCallback, hs, eventOf, hb] using h4⟩
    | false =>
      obtain ⟨s', rest, h1, h2, h3, h4⟩ := decodeCallback_fatal_spec hs result e hb
      cases hst : s.scan.isStopped with
      | true =>
        rw [scan_error_stopped hs hst] at h4
        exact ⟨s', rest, h1, by simp [h2], h3, by simpa using h4⟩
      | false =>
        rw [scan_error_eq hs hst] at h4
        refine ⟨s', (if s.scan.observed then decodeErrorOutputs w.scanErrorObserved e else [])
          ++ rest, h1, by simp [h2, isFatal, hb], ?_, ?_⟩
        · rw [streamOf_append, h3]
          cases s.scan.observed <;> simp [streamOf_decodeErrorOutputs, streamOf_nil]
        · simpa [eventOf, hb] using h4

theorem isBenign_of (e : JsError)
    (h : e.name = "NotFoundException" ∨ e.name = "ChecksumException" ∨
      e.name = "FormatException" ∨
      includes e.message "No MultiFormat Readers were able to detect the code." = true) :
    isBenign e = true := by
  simp only [isBenign, NotFoundException_name, ChecksumException_name, FormatException_name,
    Bool.or_eq_true, beq_iff_eq]
  tauto

theorem isBenign_of_not (e : JsError)
    (h : ¬ (e.name = "NotFoundException" ∨ e.name = "ChecksumException" ∨
      e.name = "FormatException" ∨
      includes e.message "No MultiFormat Readers were able to detect the code." = true)) :
    isBenign e = false := by
  cases hb : isBenign e with
  | false => rfl
  | true =>
    exfalso
    apply h
    simp only [isBenign, NotFoundException_name, ChecksumException_name, FormatException_name,
      Bool.or_eq_true, beq_iff_eq] at hb
    tauto

/-- C1. On a session whose stream is still open, a callback error named `NotFoundException`,
`ChecksumException` or `FormatException`, or whose message contains
`No MultiFormat Readers were able to detect the code.`, makes the stream push exactly one value
carrying that error (followed, when the component is subscribed, by its `scanFailure` and
`scanComplete` outputs); the callback does not throw, no control handle is stopped, the stored
control handles are left as they were, and whatever the next callback carries, its event is the
next thing the stream pushes. -/
theorem benign_error_emits_and_keeps_running (w : ZXingScannerComponent) (sid : Nat)
    (s : Session)
    (result : Option Result) (e : JsError)
    (hs : w.sessions[sid]? = some s) (hopen : s.scan.isStopped = false)
    (hb : e.name = "NotFoundException" ∨ e.name = "ChecksumException" ∨
      e.name = "FormatException" ∨
      includes e.message "No MultiFormat Readers were able to detect the code." = true) :
    (decodeCallback w sid result (some e)).thrown = none ∧
    (decodeCallback w sid result (some e)).state.log =
      w.log ++ Action.stream sid (.next ⟨none, some e⟩) ::
        (if s.scan.observed then
          [Action.emit (.scanFailure (some e)), Action.emit (.scanComplete none)] else []) ∧
    (∀ h, (decodeCallback w sid result (some e)).state.log.count (Action.ctrlsStop h) =
      w.log.count (Action.ctrlsStop h)) ∧
    (decodeCallback w sid result (some e)).state.readers = w.readers ∧
    (∀ result2 error2, ∃ rest,
      (decodeCallback (decodeCallback w sid result (some e)).state sid result2 error2).state.log =
        (decodeCallback w sid result (some e)).state.log ++
          Action.stream sid (eventOf result2 error2) :: rest) := by
  have hb' := isBenign_of e hb
  have hlt := lt_of_getElem?_eq_some hs
  have hstate : (decodeCallback w sid result (some e)).state = scan_next w sid ⟨none, some e⟩ := by
    simp [decodeCallback, hs, hb']
  have hs2 : (decodeCallback w sid result (some e)).state.sessions[sid]? =
      some { s with scan := { s.scan with value := ⟨none, some e⟩ } } := by
    rw [hstate, scan_next_eq hs]
    simp [hlt]
  refine ⟨by simp [decodeCallback, hs, hb'], ?_, ?_, ?_, ?_⟩
  · rw [hstate, scan_next_eq hs]
    cases s.scan.observed <;> simp [hopen, decodeResultOutputs]
  · intro h
    rw [hstate, scan_next_eq hs]
    cases s.scan.observed <;> simp [hopen, decodeResultOutputs, List.count_cons]
  · rw [hstate, scan_next_eq hs]
  · intro result2 error2
    obtain ⟨s', rest, -, -, -, hlog⟩ := decodeCallback_spec hs2 result2 error2
    exact ⟨rest, by simpa [hopen] using hlog⟩

/-- C1 at the running session of `scanningA` with a `NotFoundException`. -/
theorem benign_error_emits_and_keeps_running_witness :
    scanningA.sessions[0]? = some sessionA ∧ sessionA.scan.isStopped = false ∧
    (decodeCallback scanningA 0 none (some notFound)).state.log =
      scanningA.log ++ [Action.stream 0 (.next ⟨none, some notFound⟩),
        Action.emit (.scanFailure (some notFound)), Action.emit (.scanComplete none)] :=
  ⟨by decide, rfl,
    (benign_error_emits_and_keeps_running scanningA 0 sessionA none notFound (by decide) rfl
      (Or.inl rfl)).2.1⟩

theorem scannerControls_set_none (w : ZXingScannerComponent) (rid : Nat) :
    ZXingScannerComponent.scannerControls { w with readers := w.readers.set rid none } rid
      = none := by
  simp only [ZXingScannerComponent.scannerControls, List.getElem?_set]
  by_cases h : rid < w.readers.length
  · simp [h]
  · simp [h]

theorem getScannerControls_eq (w : ZXingScannerComponent) (rid : Nat) :
    getScannerControls w rid =
      match w.scannerControls rid with
      | some h => .ok h
      | none => .error noScanningRunning := rfl

/-- C2, amended. On a session that has started, whose wrapped handle is the one stored in its
reader and whose stream is still open, a callback error outside the benign kinds terminates the
stream with that error, invokes `stop()` of the underlying handle of that session exactly once and
of no other handle, does not throw, and clears the stored handle, so that `getScannerControls`
fails afterwards. -/
theorem fatal_error_terminates_and_stops_once (w : ZXingScannerComponent) (sid : Nat)
    (s : Session)
    (result : Option Result) (e : JsError)
    (hs : w.sessions[sid]? = some s) (hopen : s.scan.isStopped = false)
    (hctl : w.scannerControls s.reader = some sid)
    (hf : ¬ (e.name = "NotFoundException" ∨ e.name = "ChecksumException" ∨
      e.name = "FormatException" ∨
      includes e.message "No MultiFormat Readers were able to detect the code." = true)) :
    (decodeCallback w sid result (some e)).thrown = none ∧
    (decodeCallback w sid result (some e)).state.sessions[sid]? =
      some { s with scan :=
        { s.scan with isStopped := true, thrownError := some e, observed := false } } ∧
    (∃ tr, (decodeCallback w sid result (some e)).state.log = w.log ++ tr ∧
      tr = Action.stream sid (.error e) ::
        ((if s.scan.observed then decodeErrorOutputs w.scanErrorObserved e else []) ++
          [Action.ctrlsStop sid]) ∧
      ∀ h, tr.count (Action.ctrlsStop h) = if h = sid then 1 else 0) ∧
    (decodeCallback w sid result (some e)).state.scannerControls s.reader = none ∧
    getScannerControls (decodeCallback w sid result (some e)).state s.reader =
      .error noScanningRunning := by
  have hb := isBenign_of_not e hf
  have hlt := lt_of_getElem?_eq_some hs
  have hctl1 : (scan_error w sid e).scannerControls s.reader = some sid := by
    rw [scan_error_eq hs hopen]; exact hctl
  have hs1 : (scan_error w sid e).sessions[sid]? = some { s with scan :=
      { s.scan with isStopped := true, thrownError := some e, observed := false } } := by
    rw [scan_error_eq hs hopen]
    simp [hlt]
  have hstop : wrappedStop (scan_error w sid e) sid =
      (scan_error w sid e).record [Action.ctrlsStop sid] :=
    wrappedStop_closed (fun s' hs' => by rw [hs1] at hs'; cases hs'; rfl)
  have hstate : (decodeCallback w sid result (some e)) =
      ⟨{ (scan_error w sid e).record [Action.ctrlsStop sid] with
        readers := ((scan_error w sid e).record [Action.ctrlsStop sid]).readers.set s.reader none },
        none⟩ := by
    simp only [decodeCallback, hs, hb, hctl1, hstop]
    simp
  rw [hstate]
  refine ⟨rfl, by simpa using hs1, ?_, ?_, ?_⟩
  · refine ⟨_, ?_, rfl, ?_⟩
    · simp [scan_error_eq hs hopen]
    · intro h
      by_cases hh : h = sid
      · subst hh
        cases s.scan.observed <;> cases w.scanErrorObserved <;>
          simp [decodeErrorOutputs, List.count_cons]
      · have hh' : sid ≠ h := fun x => hh x.symm
        cases s.scan.observed <;> cases w.scanErrorObserved <;>
          simp [decodeErrorOutputs, List.count_cons, hh, hh']
  · exact scannerControls_set_none _ _
  · rw [getScannerControls_eq, scannerControls_set_none]

/-- C2, amended, at the running session of `scanningA` with a `NotReadableError`. -/
theorem fatal_error_terminates_and_stops_once_witness :
    scanningA.sessions[0]? = some sessionA ∧ sessionA.scan.isStopped = false ∧
    scanningA.scannerControls sessionA.reader = some 0 ∧
    (decodeCallback scanningA 0 none (some deviceLost)).thrown = none ∧
    getScannerControls (decodeCallback scanningA 0 none (some deviceLost)).state sessionA.reader =
      .error noScanningRunning :=
  have h := fatal_error_terminates_and_stops_once scanningA 0 sessionA none deviceLost
    (by decide) rfl (by decide) (by decide)
  ⟨by decide, rfl, by decide, h.1, h.2.2.2.2⟩

/-- C3. For a session whose stream is open, `stop()` of its wrapped handle invokes the
underlying `ctrls.stop()` and then completes the stream. A second `stop()` cannot throw
(`wrappedStop` is total) and leaves every field of the state as the first call left it: the
stream pushes nothing more, and the only new effect is the repeated call of the underlying
`ctrls.stop()`. -/
theorem wrapped_stop_completes_idempotent (w : ZXingScannerComponent) (sid : Nat)
    (s : Session)
    (hs : w.sessions[sid]? = some s) (hopen : s.scan.isStopped = false) :
    (wrappedStop w sid).log = w.log ++ [Action.ctrlsStop sid, Action.stream sid .complete] ∧
    (wrappedStop w sid).sessions[sid]? =
      some { s with scan := { s.scan with isStopped := true, observed := false } } ∧
    wrappedStop (wrappedStop w sid) sid =
      { wrappedStop w sid with log := (wrappedStop w sid).log ++ [Action.ctrlsStop sid] } := by
  have hlt := lt_of_getElem?_eq_some hs
  have h1 : (wrappedStop w sid).sessions[sid]? =
      some { s with scan := { s.scan with isStopped := true, observed := false } } := by
    rw [wrappedStop_open hs hopen]
    simp [hlt]
  refine ⟨by rw [wrappedStop_open hs hopen], h1, ?_⟩
  rw [wrappedStop_closed (w := wrappedStop w sid) (fun s' hs' => by rw [h1] at hs'; cases hs'; rfl)]
  rfl

/-- C3 at the running session of `scanningA`. -/
theorem wrapped_stop_completes_idempotent_witness :
    scanningA.sessions[0]? = some sessionA ∧ sessionA.scan.isStopped = false ∧
    (wrappedStop scanningA 0).log =
      scanningA.log ++ [Action.ctrlsStop 0, Action.stream 0 .complete] :=
  ⟨by decide, rfl, (wrapped_stop_completes_idempotent scanningA 0 sessionA (by decide) rfl).1⟩

theorem runCallbacks_stopped (sid : Nat) (cbs : List (Option Result × Option JsError)) :
    ∀ (w : ZXingScannerComponent) (s : Session), w.sessions[sid]? = some s →
      s.scan.isStopped = true →
      streamOf sid (runCallbacks w sid cbs).log = streamOf sid w.log := by
  induction cbs with
  | nil => intro w s _ _; rfl
  | cons cb rest ih =>
    intro w s hs hst
    obtain ⟨result, error⟩ := cb
    obtain ⟨s', tr, hs', hst', htr, hlog⟩ := decodeCallback_spec hs result error
    rw [runCallbacks, ih _ s' hs' (by simp [hst', hst]), hlog]
    simp [streamOf_append, htr, hst, streamOf_nil]

/-- C4. For every finite sequence of callback invocations on a session whose stream is open, the
notifications its stream pushes are exactly those the specification assigns
(`expectedEvents`): one per callback, in callback order, a result event when there is no error
and an error-carrying event for a benign error, up to the first fatal error, which is pushed as
the terminal error; nothing is pushed for the callbacks after it. -/
theorem stream_events_follow_callbacks (sid : Nat) (cbs : List (Option Result × Option JsError)) :
    ∀ (w : ZXingScannerComponent) (s : Session), w.sessions[sid]? = some s →
      s.scan.isStopped = false →
      streamOf sid (runCallbacks w sid cbs).log = streamOf sid w.log ++ expectedEvents cbs := by
  induction cbs with
  | nil => intro w s _ _; simp [runCallbacks, expectedEvents]
  | cons cb rest ih =>
    intro w s hs hopen
    obtain ⟨result, error⟩ := cb
    obtain ⟨s', tr, hs', hst', htr, hlog⟩ := decodeCallback_spec hs result error
    have hone : streamOf sid (decodeCallback w sid result error).state.log =
        streamOf sid w.log ++ [eventOf result error] := by
      rw [hlog, streamOf_append, streamOf_append, htr]
      simp [hopen, streamOf]
    rw [runCallbacks]
    cases error with
    | none =>
      rw [ih _ s' hs' (by simp [hst', hopen, isFatal]), hone]
      simp [expectedEvents, eventOf]
    | some e =>
      cases hb : isBenign e with
      | true =>
        rw [ih _ s' hs' (by simp [hst', hopen, isFatal, hb]), hone]
        simp [expectedEvents, eventOf, hb]
      | false =>
        rw [runCallbacks_stopped sid rest _ s' hs' (by simp [hst', isFatal, hb]), hone]
        simp [expectedEvents, eventOf, hb]

/-- C4 at `scanningA`: a miss, a result, a fatal error and a late result. -/
theorem stream_events_follow_callbacks_witness :
    scanningA.sessions[0]? = some sessionA ∧ sessionA.scan.isStopped = false ∧
    streamOf 0 (runCallbacks scanningA 0
      [(none, some notFound), (some ⟨"ABC123"⟩, none), (none, some deviceLost),
        (some ⟨"late"⟩, none)]).log =
      streamOf 0 scanningA.log ++ [.next ⟨none, some notFound⟩, .next ⟨some ⟨"ABC123"⟩, none⟩,
        .error deviceLost] :=
  ⟨by decide, rfl, stream_events_follow_callbacks 0 _ scanningA sessionA (by decide) rfl⟩

theorem scan_error_readers (w : ZXingScannerComponent) (sid : Nat) (e : JsError) :
    (scan_error w sid e).readers = w.readers := by
  unfold scan_error
  cases hs : w.sessions[sid]? with
  | none => rfl
  | some s =>
    cases hst : s.scan.isStopped <;> cases hob : s.scan.observed <;>
      simp [hst, hob, _onDecodeError_eq]

theorem scannerControls_congr {w w' : ZXingScannerComponent} (h : w'.readers = w.readers)
    (rid : Nat) : w'.scannerControls rid = w.scannerControls rid := by
  simp [ZXingScannerComponent.scannerControls, h]

theorem scannerControls_set_some (w : ZXingScannerComponent) (rid h : Nat)
    (hlt : rid < w.readers.length) :
    ZXingScannerComponent.scannerControls { w with readers := w.readers.set rid (some h) } rid
      = some h := by
  simp [ZXingScannerComponent.scannerControls, List.getElem?_set, hlt]

/-- C5, the code at the failing input: after `scanStop()` the component holds no subscription, the
stream of the only session is completed and its underlying handle has been stopped, so no session
is running, yet `getScannerControls` still returns the handle instead of failing. -/
theorem getScannerControls_returns_stopped_handle :
    stoppedA._scanSubscription = none ∧
    stoppedA.sessions.map (fun s => s.scan.isStopped) = [true] ∧
    Action.ctrlsStop 0 ∈ stoppedA.log ∧
    getScannerControls stoppedA 0 = .ok 0 :=
  ⟨by decide, by decide, by decide, rfl⟩

/-- The stored handle decides: `getScannerControls` returns the stored control handle whenever one
is stored and fails with `No scanning is running at the time.` exactly when none is stored. None
is stored in a reader that was just created (before any start), after a failed start, and after a
fatal fault on a session whose reader had a handle stored; a successful start stores the handle of
its session; and the handle stays stored after its `stop()` has been called. -/
theorem getScannerControls_follows_stored_handle :
    (∀ (w : ZXingScannerComponent) (rid h : Nat), w.scannerControls rid = some h →
      getScannerControls w rid = .ok h) ∧
    (∀ (w : ZXingScannerComponent) (rid : Nat), w.scannerControls rid = none →
      getScannerControls w rid = .error ⟨"Error", "No scanning is running at the time."⟩) ∧
    (∀ (w : ZXingScannerComponent), w._codeReader = none →
      getScannerControls (getCodeReader w).1 (getCodeReader w).2 =
        .error ⟨"Error", "No scanning is running at the time."⟩) ∧
    (∀ (w : ZXingScannerComponent) (sid : Nat) (s : Session) (ctrls : IScannerControls),
      w.sessions[sid]? = some s → s.reader < w.readers.length →
      getScannerControls (scanFromDeviceObservable_resume w sid (.ok ctrls)) s.reader = .ok sid) ∧
    (∀ (w : ZXingScannerComponent) (sid : Nat) (s : Session) (e : JsError),
      w.sessions[sid]? = some s →
      getScannerControls (scanFromDeviceObservable_resume w sid (.error e)) s.reader =
        .error ⟨"Error", "No scanning is running at the time."⟩) ∧
    (∀ (w : ZXingScannerComponent) (sid : Nat) (s : Session) (result : Option Result)
      (e : JsError) (h : Nat),
      w.sessions[sid]? = some s → w.scannerControls s.reader = some h → isBenign e = false →
      getScannerControls (decodeCallback w sid result (some e)).state s.reader =
        .error ⟨"Error", "No scanning is running at the time."⟩) ∧
    (∀ (w : ZXingScannerComponent) (rid h : Nat), w.scannerControls rid = some h →
      getScannerControls (wrappedStop w h) rid = .ok h) := by
  refine ⟨?_, ?_, ?_, ?_, ?_, ?_, ?_⟩
  · intro w rid h hc
    simp [getScannerControls_eq, hc]
  · intro w rid hc
    simp [getScannerControls_eq, hc, noScanningRunning]
  · intro w hc
    simp [getScannerControls_eq, getCodeReader, hc, ZXingScannerComponent.scannerControls,
      noScanningRunning]
  · intro w sid s ctrls hs hlt
    simp only [scanFromDeviceObservable_resume, hs, getScannerControls_eq]
    simp [ZXingScannerComponent.scannerControls, List.getElem?_set, hlt]
  · intro w sid s e hs
    simp only [scanFromDeviceObservable_resume, hs, getScannerControls_eq]
    rw [scannerControls_set_none]
    rfl
  · intro w sid s result e h hs hc hb
    have hc1 : (scan_error w sid e).scannerControls s.reader = some h := by
      rw [scannerControls_congr (scan_error_readers w sid e)]; exact hc
    have hst : (decodeCallback w sid result (some e)).state =
        { wrappedStop (scan_error w sid e) h with
          readers := (wrappedStop (scan_error w sid e) h).readers.set s.reader none } := by
      simp [decodeCallback, hs, hb, hc1]
    rw [hst, getScannerControls_eq, scannerControls_set_none]
    rfl
  · intro w rid h hc
    obtain ⟨_, -, hr, -⟩ := wrappedStop_spec w h
    rw [getScannerControls_eq, scannerControls_congr hr, hc]

/-- The stored handle at `scanningA` (a handle is stored) and at a freshly created reader. -/
theorem getScannerControls_follows_stored_handle_witness :
    scanningA.scannerControls 0 = some 0 ∧ getScannerControls scanningA 0 = .ok 0 ∧
    readyState._codeReader = none ∧
    getScannerControls (getCodeReader readyState).1 (getCodeReader readyState).2 =
      .error ⟨"Error", "No scanning is running at the time."⟩ :=
  ⟨by decide, getScannerControls_follows_stored_handle.1 scanningA 0 0 (by decide), rfl,
    getScannerControls_follows_stored_handle.2.2.1 readyState rfl⟩

/-- C6 as stated fails: while the start of session 0 is pending its callback receives a fatal
error, which terminates the stream with that error (and throws, the reader having no handle
yet); when the capability then rejects with the `TypeError`, the stream stays terminated with
the earlier error, not with the fault of the rejection. -/
theorem failed_start_keeps_earlier_fault :
    pendingA.sessions.map (fun s => (s.phase, s.scan.isStopped)) = [(.pending, false)] ∧
    (decodeCallback pendingA 0 none (some deviceLost)).thrown = some undefinedStop ∧
    (scanFromDeviceObservable_resume faultedBeforeStart 0 (.error undefinedStop)).sessions.map
      (fun s => s.scan.thrownError) = [some deviceLost] ∧
    deviceLost ≠ undefinedStop :=
  ⟨by decide, by decide, by decide, by decide⟩

/-- C6, amended. When the continuous-decode capability throws or rejects with `e`, the stream of
the session is terminated on return: with `e` (pushed as the first effect) if it was still
open, and unchanged if a fatal callback error had already terminated it. The control handle
stored in the reader, if any, is stopped, and the stored handle is cleared, so that
`getScannerControls` fails afterwards. -/
theorem failed_start_terminates_and_clears (w : ZXingScannerComponent) (sid : Nat)
    (s : Session) (e : JsError)
    (hs : w.sessions[sid]? = some s) :
    (∃ s', (scanFromDeviceObservable_resume w sid (.error e)).sessions[sid]? = some s' ∧
      s'.scan.isStopped = true ∧
      (s.scan.isStopped = false → s'.scan.thrownError = some e) ∧
      (s.scan.isStopped = true → s'.scan = s.scan)) ∧
    (∃ tr, (scanFromDeviceObservable_resume w sid (.error e)).log = w.log ++ tr ∧
      (s.scan.isStopped = false → ∃ rest, tr = Action.stream sid (.error e) :: rest) ∧
      (∀ h, w.scannerControls s.reader = some h → Action.ctrlsStop h ∈ tr)) ∧
    (scanFromDeviceObservable_resume w sid (.error e)).scannerControls s.reader = none ∧
    getScannerControls (scanFromDeviceObservable_resume w sid (.error e)) s.reader =
      .error ⟨"Error", "No scanning is running at the time."⟩ := by
  have hlt := lt_of_getElem?_eq_some hs
  have hs0 : ({ w with sessions := w.sessions.set sid { s with phase := .failed } } :
      ZXingScannerComponent).sessions[sid]? = some { s with phase := .failed } := by
    simp [hlt]
  have h1 : ∃ s1 tr1,
      (scan_error { w with sessions := w.sessions.set sid { s with phase := .failed } } sid
        e).sessions[sid]? = some s1 ∧ s1.scan.isStopped = true ∧
      (s.scan.isStopped = false → s1.scan.thrownError = some e) ∧
      (s.scan.isStopped = true → s1.scan = s.scan) ∧
      (scan_error { w with sessions := w.sessions.set sid { s with phase := .failed } } sid
        e).log = w.log ++ tr1 ∧
      (s.scan.isStopped = false → ∃ rest, tr1 = Action.stream sid (.error e) :: rest) := by
    cases hst : s.scan.isStopped with
    | true =>
      refine ⟨{ s with phase := .failed }, [], ?_, hst, by simp, by simp, ?_, by simp⟩
      · rw [scan_error_stopped hs0 hst]; exact hs0
      · rw [scan_error_stopped hs0 hst]; simp
    | false =>
      refine ⟨{ s with phase := .failed, scan :=
        { s.scan with isStopped := true, thrownError := some e, observed := false } },
        Action.stream sid (.error e) ::
          (if s.scan.observed then decodeErrorOutputs w.scanErrorObserved e else []), ?_, rfl,
        by simp, by simp, ?_, fun _ => ⟨_, rfl⟩⟩
      · rw [scan_error_eq hs0 hst]
        simp [hlt]
      · rw [scan_error_eq hs0 hst]
  obtain ⟨s1, tr1, hs1, hst1, herr, hsame, hlog1, hfirst⟩ := h1
  have hr1 : (scan_error { w with sessions := w.sessions.set sid { s with phase := .failed } }
      sid e).scannerControls s.reader = w.scannerControls s.reader :=
    scannerControls_congr (scan_error_readers _ sid e) s.reader
  have hstate : scanFromDeviceObservable_resume w sid (.error e) =
      { (match (scan_error { w with sessions := w.sessions.set sid { s with phase := .failed } }
            sid e).scannerControls s.reader with
          | some h => wrappedStop (scan_error
              { w with sessions := w.sessions.set sid { s with phase := .failed } } sid e) h
          | none => scan_error
              { w with sessions := w.sessions.set sid { s with phase := .failed } } sid e) with
        readers := (match (scan_error
              { w with sessions := w.sessions.set sid { s with phase := .failed } }
              sid e).scannerControls s.reader with
          | some h => wrappedStop (scan_error
              { w with sessions := w.sessions.set sid { s with phase := .failed } } sid e) h
          | none => scan_error
              { w with sessions := w.sessions.set sid { s with phase := .failed } } sid
                e).readers.set s.reader none } := by
    simp only [scanFromDeviceObservable_resume, hs]
  rw [hstate, getScannerControls_eq, scannerControls_set_none]
  refine ⟨?_, ?_, rfl, rfl⟩
  · cases hc : w.scannerControls s.reader with
    | none =>
      rw [hr1, hc]
      exact ⟨s1, hs1, hst1, herr, hsame⟩
    | some h =>
      rw [hr1, hc]
      obtain ⟨_, -, -, hsess⟩ := wrappedStop_spec (scan_error
        { w with sessions := w.sessions.set sid { s with phase := .failed } } sid e) h
      exact ⟨s1, (hsess sid s1 hs1 (Or.inr hst1)).1, hst1, herr, hsame⟩
  · cases hc : w.scannerControls s.reader with
    | none =>
      rw [hr1, hc]
      exact ⟨tr1, hlog1, hfirst, by simp⟩
    | some h =>
      rw [hr1, hc]
      obtain ⟨rest, hlog2, -, -⟩ := wrappedStop_spec (scan_error
        { w with sessions := w.sessions.set sid { s with phase := .failed } } sid e) h
      refine ⟨tr1 ++ Action.ctrlsStop h :: rest, ?_, ?_, ?_⟩
      · show (wrappedStop _ h).log = _
        rw [hlog2, hlog1]; simp
      · intro ho
        obtain ⟨r, hr⟩ := hfirst ho
        exact ⟨r ++ Action.ctrlsStop h :: rest, by simp [hr]⟩
      · intro h' hh'
        cases hh'
        simp

/-- C6, amended, at the pending start of `pendingA`. -/
theorem failed_start_terminates_and_clears_witness :
    pendingA.sessions[0]? = some sessionPendingA ∧
    getScannerControls (scanFromDeviceObservable_resume pendingA 0 (.error deviceLost)) 0 =
      .error ⟨"Error", "No scanning is running at the time."⟩ :=
  ⟨by decide,
    (failed_start_terminates_and_clears pendingA 0 sessionPendingA deviceLost (by decide)).2.2.2⟩

theorem wrappedStop_frame (w : ZXingScannerComponent) (h : Nat) :
    ∃ ss tr, wrappedStop w h = { w with sessions := ss, log := w.log ++ Action.ctrlsStop h :: tr } ∧
      ss.length = w.sessions.length ∧ ∀ a ∈ tr, a = Action.stream h .complete := by
  by_cases hc : ∀ s, w.sessions[h]? = some s → s.scan.isStopped = true
  · exact ⟨w.sessions, [], by rw [wrappedStop_closed hc]; rfl, rfl, by simp⟩
  · push_neg at hc
    obtain ⟨sh, hsh, hopen⟩ := hc
    have hopen' : sh.scan.isStopped = false := by simpa using hopen
    exact ⟨_, [Action.stream h .complete], by rw [wrappedStop_open hsh hopen'], by simp,
      by simp⟩

theorem unsubscribe_frame (w : ZXingScannerComponent) (sub : Nat) :
    ∃ ss, unsubscribe w sub = { w with sessions := ss } ∧ ss.length = w.sessions.length := by
  unfold unsubscribe
  cases hs : w.sessions[sub]? with
  | none => exact ⟨w.sessions, rfl, rfl⟩
  | some s => exact ⟨_, rfl, by simp⟩

theorem scanStop_ok (w : ZXingScannerComponent) (hsafe : canStop w = true) :
    ∃ ss st, scanStop w =
        ⟨{ w with
            _scanSubscription := none
            sessions := ss
            log := w.log ++ st ++ [Action.emit (.torchCompatible false)] }, none⟩ ∧
      ss.length = w.sessions.length ∧
      (∀ a ∈ st, ∃ h, a = Action.ctrlsStop h ∨ a = Action.stream h .complete) ∧
      (∀ sub rid h, w._scanSubscription = some sub → w._codeReader = some rid →
        w.scannerControls rid = some h → ∃ rest, st = Action.ctrlsStop h :: rest) := by
  cases hsub : w._scanSubscription with
  | none =>
    refine ⟨w.sessions, [], ?_, rfl, by simp, by simp⟩
    simp only [scanStop, hsub, ZXingScannerComponent.record, List.append_nil]
  | some sub =>
    cases hrd : w._codeReader with
    | none =>
      obtain ⟨ss, hu, hlen⟩ := unsubscribe_frame w sub
      refine ⟨ss, [], ?_, hlen, by simp, by simp [hrd]⟩
      simp only [scanStop, hsub, hrd, hu, ZXingScannerComponent.record, List.append_nil]
    | some rid =>
      cases hctl : w.scannerControls rid with
      | none => simp [canStop, hsub, hrd, hctl] at hsafe
      | some h =>
        obtain ⟨ss1, tr, hw, hlen1, htr⟩ := wrappedStop_frame w h
        obtain ⟨ss, hu, hlen⟩ := unsubscribe_frame (wrappedStop w h) sub
        refine ⟨ss, Action.ctrlsStop h :: tr, ?_, ?_, ?_, ?_⟩
        · simp only [scanStop, hsub, hrd, getScannerControls_eq, hctl, hu,
            ZXingScannerComponent.record]
          simp [hw]
          exact hrd
        · rw [hlen, hw]; exact hlen1
        · intro a ha
          rcases List.mem_cons.mp ha with rfl | ha
          · exact ⟨h, Or.inl rfl⟩
          · exact ⟨h, Or.inr (htr a ha)⟩
        · intro sub' rid' h' _ hrd' hctl'
          cases hrd'
          rw [hctl] at hctl'
          cases hctl'
          exact ⟨tr, rfl⟩

theorem scanStop_throws (w : ZXingScannerComponent) (h : canStop w = false) :
    scanStop w = ⟨w, some noScanningRunning⟩ := by
  cases hsub : w._scanSubscription with
  | none => simp [canStop, hsub] at h
  | some sub =>
    cases hrd : w._codeReader with
    | none => simp [canStop, hsub, hrd] at h
    | some rid =>
      cases hctl : w.scannerControls rid with
      | some x => simp [canStop, hsub, hrd, hctl] at h
      | none => simp [scanStop, hsub, hrd, getScannerControls_eq, hctl]

theorem setDevice_throws (w : ZXingScannerComponent) (d : Option MediaDeviceInfo)
    (h : canStop w = false) : setDevice w d = ⟨w, some noScanningRunning⟩ := by
  simp [setDevice, scanStop_throws w h]

theorem setDevice_ok (w : ZXingScannerComponent) (d : Option MediaDeviceInfo)
    (hsafe : canStop w = true) :
    ∃ cr rs ss st, setDevice w d =
        ⟨{ w with
            _device := d
            _scanSubscription := none
            _codeReader := cr
            readers := rs
            sessions := ss
            log := w.log ++ st ++ [Action.emit (.torchCompatible false)] ++ afterStop w d }, none⟩ ∧
      (∀ a ∈ st, ∃ h, a = Action.ctrlsStop h ∨ a = Action.stream h .complete) ∧
      (∀ sub rid h, w._scanSubscription = some sub → w._codeReader = some rid →
        w.scannerControls rid = some h → ∃ rest, st = Action.ctrlsStop h :: rest) := by
  obtain ⟨ss, st, hstop, hlen, hst, hfirst⟩ := scanStop_ok w hsafe
  cases d with
  | none =>
    refine ⟨w._codeReader, w.readers, ss, st, ?_, hst, hfirst⟩
    simp [setDevice, hstop, afterStop, ZXingScannerComponent.record]
  | some dev =>
    cases hen : w._enabled with
    | false =>
      refine ⟨w._codeReader, w.readers, ss, st, ?_, hst, hfirst⟩
      simp [setDevice, hstop, afterStop, hen]
    | true =>
      cases hrd : w._codeReader with
      | some rid =>
        refine ⟨some rid, w.readers,
          ss ++ [⟨rid, dev.deviceId, ⟨⟨none, none⟩, false, none, false⟩, .pending, false⟩], st, ?_, hst,
          fun sub r h hs hr hc => hfirst sub r h hs (hrd.trans hr) hc⟩
        simp [setDevice, hstop, afterStop, hen, scanFromDevice_begin, getCodeReader, hrd,
          scanFromDeviceObservable_begin, hlen]
      | none =>
        refine ⟨some w.readers.length, w.readers ++ [none],
          ss ++ [⟨w.readers.length, dev.deviceId, ⟨⟨none, none⟩, false, none, false⟩, .pending,
            false⟩], st, ?_, hst,
          fun sub r h hs hr hc => hfirst sub r h hs (hrd.trans hr) hc⟩
        simp [setDevice, hstop, afterStop, hen, scanFromDevice_begin, getCodeReader, hrd,
          scanFromDeviceObservable_begin, hlen]

/-- Switching devices while the reader is in place. Let the component be scanning on device A: it
holds the subscription of session `sid`, its code reader stores the wrapped handle of `sid`, and
the stream of `sid` is open. Then `setDevice(B)` does not throw; its effects are, in this order,
`stop()` of the underlying handle of `sid`, the completion of its stream, `torchCompatible(false)`
and, when scanning is enabled, the request to start a session on B. Every start request among
these effects is preceded by the stop of A. Afterwards the stream of `sid` is completed and
unobserved, no subscription is held, B is the selected device, and the new session is pending on
B. -/
theorem setDevice_stops_before_start (w : ZXingScannerComponent) (sid rid : Nat)
    (s : Session) (b : MediaDeviceInfo)
    (hsub : w._scanSubscription = some sid) (hrd : w._codeReader = some rid)
    (hctl : w.scannerControls rid = some sid) (hs : w.sessions[sid]? = some s)
    (hopen : s.scan.isStopped = false) :
    (setDevice w (some b)).thrown = none ∧
    (setDevice w (some b)).state.log =
      w.log ++ Action.ctrlsStop sid :: Action.stream sid .complete ::
        Action.emit (.torchCompatible false) ::
        (if w._enabled then [Action.decodeFromVideoDevice w.sessions.length b.deviceId]
          else []) ∧
    (∀ pre post n dev, (setDevice w (some b)).state.log =
        w.log ++ pre ++ Action.decodeFromVideoDevice n dev :: post →
      Action.ctrlsStop sid ∈ pre) ∧
    (setDevice w (some b)).state.sessions[sid]? =
      some { s with scan := { s.scan with isStopped := true, observed := false } } ∧
    (setDevice w (some b)).state._scanSubscription = none ∧
    (setDevice w (some b)).state._device = some b ∧
    (w._enabled = true → (setDevice w (some b)).state.sessions[w.sessions.length]? =
      some ⟨rid, b.deviceId, ⟨⟨none, none⟩, false, none, false⟩, .pending, false⟩) := by
  have hlt := lt_of_getElem?_eq_some hs
  have hstop : scanStop w =
      ⟨{ w with
          _scanSubscription := none
          sessions := w.sessions.set sid
            { s with scan := { s.scan with isStopped := true, observed := false } }
          log := w.log ++ [Action.ctrlsStop sid, Action.stream sid .complete,
            Action.emit (.torchCompatible false)] }, none⟩ := by
    simp [scanStop, hsub, hrd, getScannerControls_eq, hctl, wrappedStop_open hs hopen,
      unsubscribe, hlt, ZXingScannerComponent.record]
  have hlog : (setDevice w (some b)).state.log =
      w.log ++ Action.ctrlsStop sid :: Action.stream sid .complete ::
        Action.emit (.torchCompatible false) ::
        (if w._enabled then [Action.decodeFromVideoDevice w.sessions.length b.deviceId]
          else []) := by
    cases hen : w._enabled <;>
      simp [setDevice, hstop, hen, scanFromDevice_begin, getCodeReader, hrd,
        scanFromDeviceObservable_begin]
  refine ⟨?_, hlog, ?_, ?_, ?_, ?_, ?_⟩
  · cases hen : w._enabled <;> simp [setDevice, hstop, hen]
  · intro pre post n dev hdec
    rw [hlog, List.append_assoc] at hdec
    have hdec' := List.append_cancel_left hdec
    cases pre with
    | nil => simp at hdec'
    | cons p pre' =>
      simp only [List.cons_append, List.cons.injEq] at hdec'
      rw [← hdec'.1]
      simp
  · cases hen : w._enabled <;>
      simp [setDevice, hstop, hen, scanFromDevice_begin, getCodeReader, hrd,
        scanFromDeviceObservable_begin, hlt, List.getElem?_append]
  · cases hen : w._enabled <;>
      simp [setDevice, hstop, hen, scanFromDevice_begin, getCodeReader, hrd,
        scanFromDeviceObservable_begin]
  · cases hen : w._enabled <;>
      simp [setDevice, hstop, hen, scanFromDevice_begin, getCodeReader, hrd,
        scanFromDeviceObservable_begin]
  · intro hen
    simp [setDevice, hstop, hen, scanFromDevice_begin, getCodeReader, hrd,
      scanFromDeviceObservable_begin, List.getElem?_append]

/-- Switching from `scanningA` to device B. -/
theorem setDevice_stops_before_start_witness :
    scanningA._scanSubscription = some 0 ∧ scanningA._codeReader = some 0 ∧
    scanningA.scannerControls 0 = some 0 ∧ scanningA.sessions[0]? = some sessionA ∧
    sessionA.scan.isStopped = false ∧
    (setDevice scanningA (some camB)).state.log =
      scanningA.log ++ [Action.ctrlsStop 0, Action.stream 0 .complete,
        Action.emit (.torchCompatible false), Action.decodeFromVideoDevice 1 "B"] :=
  ⟨rfl, rfl, by decide, by decide, rfl,
    (setDevice_stops_before_start scanningA 0 0 sessionA camB rfl rfl (by decide) (by decide) rfl).2.1⟩

/-- C8, the code at the failing input: disabling the scanner while scanning on A makes `_reset`
clear `_codeReader` and assign `undefined` to the `device` input, which calls
`setDevice(undefined)` in the state `readerDropped`. Session 0 is running there (started, stream
open, handle never stopped), and `setDevice` returns without having invoked `stop()` of its handle
and with its stream still open: scanStop skips the whole optional chain when there is no code
reader. -/
theorem setDevice_skips_stop_without_reader :
    (_reset scanningA).1 = set_device readerDropped none ∧
    set_device readerDropped none = (setDevice readerDropped none).state ∧
    readerDropped.sessions.map (fun s => (s.phase, s.scan.isStopped)) = [(.started, false)] ∧
    Action.ctrlsStop 0 ∉ readerDropped.log ∧
    (setDevice readerDropped none).thrown = none ∧
    Action.ctrlsStop 0 ∉ (setDevice readerDropped none).state.log ∧
    (setDevice readerDropped none).state.sessions.map (fun s => s.scan.isStopped) = [false] :=
  ⟨by decide, by decide, by decide, by decide, by decide, by decide, by decide⟩

/-- The effects of `setDevice`. In every state in which `scanStop` does not throw (no subscription
is held, or there is no code reader, or the code reader has a control handle stored) and for every
argument, `setDevice` does not throw and first runs `scanStop`: when a subscription is held and
the code reader stores a handle, the first effect is `stop()` of that handle; the subscription is
dropped; the effects of this part are only stops, stream completions and `torchCompatible(false)`.
Then the selected device is the argument, the display target is unbound exactly when the argument
is absent, and a session start is requested exactly when scanning is enabled and a device was
given. -/
theorem setDevice_effects (w : ZXingScannerComponent) (d : Option MediaDeviceInfo)
    (hsafe : canStop w = true) :
    (setDevice w d).thrown = none ∧
    (setDevice w d).state._device = d ∧
    (setDevice w d).state._scanSubscription = none ∧
    (∃ st, (setDevice w d).state.log =
        w.log ++ st ++ [Action.emit (.torchCompatible false)] ++
          (match d with
            | none => [Action.cleanVideoSource]
            | some dev =>
              if w._enabled then [Action.decodeFromVideoDevice w.sessions.length dev.deviceId]
              else []) ∧
      (∀ a ∈ st, ∃ h, a = Action.ctrlsStop h ∨ a = Action.stream h .complete) ∧
      (∀ sub rid h, w._scanSubscription = some sub → w._codeReader = some rid →
        w.scannerControls rid = some h → ∃ rest, st = Action.ctrlsStop h :: rest)) ∧
    (Action.cleanVideoSource ∈ (setDevice w d).state.log.drop w.log.length ↔ d = none) ∧
    ((∃ n id, Action.decodeFromVideoDevice n id ∈ (setDevice w d).state.log.drop w.log.length) ↔
      (w._enabled = true ∧ ∃ dev, d = some dev)) := by
  obtain ⟨cr, rs, ss, st, heq, hst, hfirst⟩ := setDevice_ok w d hsafe
  have hlog : (setDevice w d).state.log.drop w.log.length =
      st ++ [Action.emit (.torchCompatible false)] ++ afterStop w d := by
    rw [heq]
    simp [List.append_assoc]
  have hnc : Action.cleanVideoSource ∉ st := by
    intro hm
    obtain ⟨h, hh | hh⟩ := hst _ hm <;> cases hh
  have hnd : ∀ n id, Action.decodeFromVideoDevice n id ∉ st := by
    intro n id hm
    obtain ⟨h, hh | hh⟩ := hst _ hm <;> cases hh
  refine ⟨by rw [heq], by rw [heq], by rw [heq], ⟨st, ?_, hst, hfirst⟩, ?_, ?_⟩
  · rw [heq]
    cases d <;> rfl
  · rw [hlog]
    cases d with
    | none => simp [afterStop]
    | some dev =>
      cases hen : w._enabled <;> simp [afterStop, hnc, hen]
  · rw [hlog]
    cases d with
    | none => simp [afterStop, hnd]
    | some dev =>
      cases hen : w._enabled <;> simp [afterStop, hnd, hen]

/-- The effects of `setDevice` at `scanningA`, clearing the device. -/
theorem setDevice_effects_witness :
    canStop scanningA = true ∧
    (setDevice scanningA none).state._device = none ∧
    (setDevice scanningA none).state.log =
      scanningA.log ++ [Action.ctrlsStop 0, Action.stream 0 .complete,
        Action.emit (.torchCompatible false), Action.cleanVideoSource] :=
  ⟨by decide, (setDevice_effects scanningA none (by decide)).2.1, by decide⟩

theorem canStop_record (w : ZXingScannerComponent) (as : List Action) :
    canStop (w.record as) = canStop w := rfl

theorem set_device_notReady {w : ZXingScannerComponent} (d : Option MediaDeviceInfo)
    (hr : w._ready = false) : set_device w d = { w with _devicePreStart := d } := by
  simp [set_device, hr]

theorem set_device_autostarting {w : ZXingScannerComponent} (d : Option MediaDeviceInfo)
    (hr : w._ready = true) (ha : w._isAutostarting = true) :
    set_device w d = w.record [Action.consoleWarn "Avoid setting a device during auto-start."] := by
  simp [set_device, hr, ha]

theorem set_device_current {w : ZXingScannerComponent} (d : Option MediaDeviceInfo)
    (hr : w._ready = true) (ha : w._isAutostarting = false) (hc : isCurrentDevice w d = true) :
    set_device w d = w.record [Action.consoleWarn "Setting the same device is not allowed."] := by
  simp [set_device, hr, ha, hc]

theorem set_device_noPermission {w : ZXingScannerComponent} (d : Option MediaDeviceInfo)
    (hr : w._ready = true) (ha : w._isAutostarting = false) (hc : isCurrentDevice w d = false)
    (hp : w.hasPermission ≠ some true) :
    set_device w d = w.record [Action.consoleWarn
      "Permissions not set yet, waiting for them to be set to apply device change."] := by
  simp [set_device, hr, ha, hc, hp]

theorem set_device_delegates {w : ZXingScannerComponent} (d : Option MediaDeviceInfo)
    (hr : w._ready = true) (ha : w._isAutostarting = false) (hc : isCurrentDevice w d = false)
    (hp : w.hasPermission = some true) :
    set_device w d =
      match (setDevice w d).thrown with
      | none => (setDevice w d).state
      | some e => (setDevice w d).state.record [Action.unhandledRejection e] := by
  simp [set_device, hr, ha, hc, hp]

theorem set_device_twice (w : ZXingScannerComponent) (d : Option MediaDeviceInfo) :
    ∃ extra, set_device (set_device w d) d =
        { set_device w d with log := (set_device w d).log ++ extra } ∧
      ∀ a ∈ extra, (∃ m, a = Action.consoleWarn m) ∨ (∃ e, a = Action.unhandledRejection e) := by
  cases hr : w._ready with
  | false =>
    refine ⟨[], ?_, by simp⟩
    rw [set_device_notReady d hr, set_device_notReady d (w := { w with _devicePreStart := d }) hr]
    simp
  | true =>
    cases ha : w._isAutostarting with
    | true =>
      refine ⟨[Action.consoleWarn "Avoid setting a device during auto-start."], ?_, by simp⟩
      rw [set_device_autostarting d hr ha, set_device_autostarting d (w := w.record _) hr ha]
      rfl
    | false =>
      cases hc : isCurrentDevice w d with
      | true =>
        refine ⟨[Action.consoleWarn "Setting the same device is not allowed."], ?_, by simp⟩
        rw [set_device_current d hr ha hc, set_device_current d (w := w.record _) hr ha hc]
        rfl
      | false =>
        by_cases hp : w.hasPermission = some true
        · cases hsafe : canStop w with
          | false =>
            refine ⟨[Action.unhandledRejection noScanningRunning], ?_, by simp⟩
            have h1 : set_device w d = w.record [Action.unhandledRejection noScanningRunning] := by
              rw [set_device_delegates d hr ha hc hp, setDevice_throws w d hsafe]
            have h2 : set_device (w.record [Action.unhandledRejection noScanningRunning]) d =
                (w.record [Action.unhandledRejection noScanningRunning]).record
                  [Action.unhandledRejection noScanningRunning] := by
              rw [set_device_delegates d (w := w.record _) hr ha hc hp,
                setDevice_throws (w.record _) d hsafe]
            rw [h1, h2]
            rfl
          | true =>
            obtain ⟨cr, rs, ss, st, heq, -, -⟩ := setDevice_ok w d hsafe
            refine ⟨[Action.consoleWarn "Setting the same device is not allowed."], ?_, by simp⟩
            have h1 : set_device w d = (setDevice w d).state := by
              rw [set_device_delegates d hr ha hc hp, heq]
            rw [h1, heq]
            rw [set_device_current d (by exact hr) (by exact ha) (by simp [isCurrentDevice])]
            rfl
        · refine ⟨[Action.consoleWarn
            "Permissions not set yet, waiting for them to be set to apply device change."], ?_,
            by simp⟩
          rw [set_device_noPermission d hr ha hc hp,
            set_device_noPermission d (w := w.record _) hr ha hc hp]
          rfl

/-- C9. Assigning to the `device` input a device whose identifier equals that of the selected
device changes nothing but the pending-device slot (before the component is ready) and the log,
to which it adds at most console warnings: no stop, no start, no output. Consequently assigning
the same device twice in a row leaves the state the first assignment left, the second one
adding only a console warning (or the repeated unhandled rejection when `setDevice` throws). -/
theorem set_device_same_is_noop (w : ZXingScannerComponent) (d : Option MediaDeviceInfo) :
    (isCurrentDevice w d = true →
      ∃ msgs : List String, set_device w d =
        { w with
          _devicePreStart := if w._ready then w._devicePreStart else d
          log := w.log ++ msgs.map Action.consoleWarn }) ∧
    (∃ extra, set_device (set_device w d) d =
        { set_device w d with log := (set_device w d).log ++ extra } ∧
      ∀ a ∈ extra, (∃ m, a = Action.consoleWarn m) ∨ (∃ e, a = Action.unhandledRejection e)) := by
  refine ⟨?_, set_device_twice w d⟩
  intro hc
  cases hr : w._ready with
  | false => exact ⟨[], by simp [set_device, hr]⟩
  | true =>
    cases ha : w._isAutostarting with
    | true =>
      exact ⟨["Avoid setting a device during auto-start."],
        by simp [set_device, hr, ha, ZXingScannerComponent.record]⟩
    | false =>
      exact ⟨["Setting the same device is not allowed."],
        by simp [set_device, hr, ha, hc, ZXingScannerComponent.record]⟩

/-- C9 at `scanningA`, assigning device A again. -/
theorem set_device_same_is_noop_witness :
    isCurrentDevice scanningA (some camA) = true ∧
    set_device scanningA (some camA) =
      scanningA.record [Action.consoleWarn "Setting the same device is not allowed."] ∧
    (∃ msgs : List String, set_device scanningA (some camA) =
      { scanningA with
        _devicePreStart := if scanningA._ready then scanningA._devicePreStart else some camA
        log := scanningA.log ++ msgs.map Action.consoleWarn }) :=
  ⟨by decide, by decide, (set_device_same_is_noop scanningA (some camA)).1 (by decide)⟩

/-- C10. The `device` setter rejects the request when the component is not ready (the device is
only stored in `_devicePreStart`), when it is autostarting, when the device is the selected one,
or when permission is not `true`; in each of these cases the selected device, the subscription,
the code reader, the stored handles and the sessions are unchanged and the log gains only
console warnings. In every other case the setter is the un-awaited call `setDevice(device)`. -/
theorem set_device_guards (w : ZXingScannerComponent) (d : Option MediaDeviceInfo) :
    (w._ready = false → set_device w d = { w with _devicePreStart := d }) ∧
    (w._ready = true → w._isAutostarting = true →
      set_device w d = w.record [Action.consoleWarn "Avoid setting a device during auto-start."]) ∧
    (w._ready = true → w._isAutostarting = false → isCurrentDevice w d = true →
      set_device w d = w.record [Action.consoleWarn "Setting the same device is not allowed."]) ∧
    (w._ready = true → w._isAutostarting = false → isCurrentDevice w d = false →
      w.hasPermission ≠ some true →
      set_device w d = w.record [Action.consoleWarn
        "Permissions not set yet, waiting for them to be set to apply device change."]) ∧
    ((w._ready = false ∨ w._isAutostarting = true ∨ isCurrentDevice w d = true ∨
        w.hasPermission ≠ some true) →
      (set_device w d)._device = w._device ∧
      (set_device w d)._scanSubscription = w._scanSubscription ∧
      (set_device w d)._codeReader = w._codeReader ∧
      (set_device w d).readers = w.readers ∧
      (set_device w d).sessions = w.sessions ∧
      ∃ msgs : List String, (set_device w d).log = w.log ++ msgs.map Action.consoleWarn) ∧
    (w._ready = true → w._isAutostarting = false → isCurrentDevice w d = false →
      w.hasPermission = some true →
      set_device w d =
        match (setDevice w d).thrown with
        | none => (setDevice w d).state
        | some e => (setDevice w d).state.record [Action.unhandledRejection e]) := by
  refine ⟨?_, ?_, ?_, ?_, ?_, ?_⟩
  · intro hr; simp [set_device, hr]
  · intro hr ha; simp [set_device, hr, ha]
  · intro hr ha hc; simp [set_device, hr, ha, hc]
  · intro hr ha hc hp; simp [set_device, hr, ha, hc, hp]
  · intro hcase
    cases hr : w._ready with
    | false => exact ⟨by simp [set_device, hr], by simp [set_device, hr], by simp [set_device, hr],
        by simp [set_device, hr], by simp [set_device, hr], [], by simp [set_device, hr]⟩
    | true =>
      cases ha : w._isAutostarting with
      | true =>
        exact ⟨by simp [set_device, hr, ha, ZXingScannerComponent.record],
          by simp [set_device, hr, ha, ZXingScannerComponent.record],
          by simp [set_device, hr, ha, ZXingScannerComponent.record],
          by simp [set_device, hr, ha, ZXingScannerComponent.record],
          by simp [set_device, hr, ha, ZXingScannerComponent.record],
          ["Avoid setting a device during auto-start."],
          by simp [set_device, hr, ha, ZXingScannerComponent.record]⟩
      | false =>
        cases hc : isCurrentDevice w d with
        | true =>
          exact ⟨by simp [set_device, hr, ha, hc, ZXingScannerComponent.record],
            by simp [set_device, hr, ha, hc, ZXingScannerComponent.record],
            by simp [set_device, hr, ha, hc, ZXingScannerComponent.record],
            by simp [set_device, hr, ha, hc, ZXingScannerComponent.record],
            by simp [set_device, hr, ha, hc, ZXingScannerComponent.record],
            ["Setting the same device is not allowed."],
            by simp [set_device, hr, ha, hc, ZXingScannerComponent.record]⟩
        | false =>
          have hp : w.hasPermission ≠ some true := by
            rcases hcase with h | h | h | h
            · simp [hr] at h
            · simp [ha] at h
            · simp [hc] at h
            · exact h
          exact ⟨by simp [set_device, hr, ha, hc, hp, ZXingScannerComponent.record],
            by simp [set_device, hr, ha, hc, hp, ZXingScannerComponent.record],
            by simp [set_device, hr, ha, hc, hp, ZXingScannerComponent.record],
            by simp [set_device, hr, ha, hc, hp, ZXingScannerComponent.record],
            by simp [set_device, hr, ha, hc, hp, ZXingScannerComponent.record],
            ["Permissions not set yet, waiting for them to be set to apply device change."],
            by simp [set_device, hr, ha, hc, hp, ZXingScannerComponent.record]⟩
  · intro hr ha hc hp
    simp [set_device, hr, ha, hc, hp]

/-- C10 at the constructed component (not ready) and at `readyState` (delegation). -/
theorem set_device_guards_witness :
    constructor._ready = false ∧
    set_device constructor (some camA) = { constructor with _devicePreStart := some camA } ∧
    readyState._ready = true ∧ readyState._isAutostarting = false ∧
    isCurrentDevice readyState (some camA) = false ∧ readyState.hasPermission = some true ∧
    set_device readyState (some camA) = (setDevice readyState (some camA)).state :=
  ⟨rfl, (set_device_guards constructor (some camA)).1 rfl, rfl, rfl, by decide, rfl,
    (set_device_guards readyState (some camA)).2.2.2.2.2 rfl rfl (by decide) rfl⟩

/-! ## Autostart, permission, enable and the manual controls -/



theorem subscribe_readers (w : ZXingScannerComponent) (sid : Nat) :
    (subscribe w sid).readers = w.readers := by
  unfold subscribe
  cases hs : w.sessions[sid]? with
  | none => rfl
  | some s =>
    cases he : s.scan.thrownError with
    | some e => simp [he, _onDecodeError_eq]
    | none =>
      cases hst : s.scan.isStopped <;> simp [he, hst, _onDecodeResult_eq]

theorem resume_error_stopped {w : ZXingScannerComponent} {sid : Nat} {s : Session}
    (hs : w.sessions[sid]? = some s) (e : JsError) :
    ∃ s', (scanFromDeviceObservable_resume w sid (.error e)).sessions[sid]? = some s' ∧
      s'.scan.isStopped = true := by
  have hlt := lt_of_getElem?_eq_some hs
  have hs0 : ({ w with sessions := w.sessions.set sid { s with phase := .failed } } :
      ZXingScannerComponent).sessions[sid]? = some { s with phase := .failed } := by
    simp [hlt]
  have h1 : ∃ s1, (scan_error { w with sessions := w.sessions.set sid { s with phase := .failed } }
      sid e).sessions[sid]? = some s1 ∧ s1.scan.isStopped = true := by
    cases hst : s.scan.isStopped with
    | true => exact ⟨{ s with phase := .failed }, by rw [scan_error_stopped hs0 hst]; exact hs0, hst⟩
    | false =>
      refine ⟨{ s with phase := .failed, scan :=
        { s.scan with isStopped := true, thrownError := some e, observed := false } }, ?_, rfl⟩
      rw [scan_error_eq hs0 hst]
      simp [hlt]
  obtain ⟨s1, hs1, hst1⟩ := h1
  simp only [scanFromDeviceObservable_resume, hs]
  cases hc : (scan_error { w with sessions := w.sessions.set sid { s with phase := .failed } }
      sid e).scannerControls s.reader with
  | none => exact ⟨s1, hs1, hst1⟩
  | some h =>
    obtain ⟨_, -, -, hsess⟩ := wrappedStop_spec (scan_error
      { w with sessions := w.sessions.set sid { s with phase := .failed } } sid e) h
    exact ⟨s1, (hsess sid s1 hs1 (Or.inr hst1)).1, hst1⟩

theorem scanFromDevice_resume_ok {w : ZXingScannerComponent} {sid : Nat} {s : Session}
    (hs : w.sessions[sid]? = some s) (hrd : s.reader < w.readers.length)
    (r : Except JsError IScannerControls) :
    (scanFromDevice_resume w sid r).thrown = none := by
  have hlt := lt_of_getElem?_eq_some hs
  cases r with
  | error e =>
    obtain ⟨s', hs', hst'⟩ := resume_error_stopped hs e
    simp [scanFromDevice_resume, hs', hst']
  | ok ctrls =>
    have h1 : scanFromDeviceObservable_resume w sid (.ok ctrls) =
        { w with
          sessions := w.sessions.set sid
            { s with phase := .started, switchTorch := ctrls.switchTorch }
          readers := w.readers.set s.reader (some sid) } := by
      simp [scanFromDeviceObservable_resume, hs]
    have hs1 : (scanFromDeviceObservable_resume w sid (.ok ctrls)).sessions[sid]? =
        some { s with phase := .started, switchTorch := ctrls.switchTorch } := by
      rw [h1]; simp [hlt]
    simp only [scanFromDevice_resume, hs1]
    cases hcl : (s.scan.thrownError.isSome || s.scan.isStopped) with
    | true => simp [hcl]
    | false =>
      have hctl : ZXingScannerComponent.scannerControls
          { subscribe (scanFromDeviceObservable_resume w sid (.ok ctrls)) sid with
            _scanSubscription := some sid } s.reader = some sid := by
        simp [ZXingScannerComponent.scannerControls, subscribe_readers, h1, List.getElem?_set, hrd]
      simp [hcl, getScannerControls_eq, hctl]



theorem setDevice_begin_session (w : ZXingScannerComponent) (dev : MediaDeviceInfo)
    (hsafe : canStop w = true) (hwf : ∀ rid, w._codeReader = some rid → rid < w.readers.length)
    (hen : w._enabled = true) :
    ∃ s, (setDevice w (some dev)).state.sessions[w.sessions.length]? = some s ∧
      s.deviceId = dev.deviceId ∧ s.reader < (setDevice w (some dev)).state.readers.length := by
  obtain ⟨ss, st, hstop, hlen, -, -⟩ := scanStop_ok w hsafe
  cases hrd : w._codeReader with
  | some rid =>
    refine ⟨⟨rid, dev.deviceId, ⟨⟨none, none⟩, false, none, false⟩, .pending, false⟩, ?_, rfl, ?_⟩
    · simp [setDevice, hstop, hen, scanFromDevice_begin, getCodeReader, hrd,
        scanFromDeviceObservable_begin, ← hlen]
    · simp [setDevice, hstop, hen, scanFromDevice_begin, getCodeReader, hrd,
        scanFromDeviceObservable_begin]
      exact hwf rid hrd
  | none =>
    refine ⟨⟨w.readers.length, dev.deviceId, ⟨⟨none, none⟩, false, none, false⟩, .pending, false⟩,
      ?_, rfl, ?_⟩
    · simp [setDevice, hstop, hen, scanFromDevice_begin, getCodeReader, hrd,
        scanFromDeviceObservable_begin, ← hlen]
    · simp [setDevice, hstop, hen, scanFromDevice_begin, getCodeReader, hrd,
        scanFromDeviceObservable_begin]

theorem autostartDevice_spec (devices : List MediaDeviceInfo) (hne : devices ≠ []) :
    ∃ device, autostartDevice devices = some device ∧
      ((matcher device = true ∧
          ∃ pre post, devices = pre ++ device :: post ∧ ∀ x ∈ pre, matcher x = false) ∨
        ((∀ x ∈ devices, matcher x = false) ∧ devices.getLast? = some device)) := by
  cases hf : devices.find? matcher with
  | some d =>
    refine ⟨d, by simp [autostartDevice, hf], Or.inl ?_⟩
    obtain ⟨hm, pre, post, hsplit, hpre⟩ := List.find?_eq_some.mp hf
    exact ⟨hm, pre, post, hsplit, fun x hx => by simpa using hpre x hx⟩
  | none =>
    cases hl : devices.getLast? with
    | none => exact absurd (List.getLast?_eq_none_iff.mp hl) hne
    | some d =>
      refine ⟨d, by simp [autostartDevice, hf, hl], Or.inr ⟨?_, rfl⟩⟩
      intro x hx
      simpa using List.find?_eq_none.mp hf x hx

/-- C11. For every non-empty device list (in a state where `scanStop` does not throw and the
code reader, if any, exists), `autostartScanner` picks a device that is either the first one
whose label matches the rear-camera pattern or, when no label matches, the last one of the list.
The call does not throw, the picked device becomes the selected device, nothing is emitted on
`deviceChange` before `setDevice` has completed, a start is requested on the device when
scanning is enabled, and once `setDevice` has completed (at once when disabled, whatever the
outcome of the start when enabled) the device is emitted on `deviceChange`. -/
theorem autostart_selects_rear_or_last (w : ZXingScannerComponent) (devices : List MediaDeviceInfo)
    (hne : devices ≠ []) (hsafe : canStop w = true)
    (hwf : ∀ rid, w._codeReader = some rid → rid < w.readers.length) :
    ∃ device, autostartDevice devices = some device ∧
      ((matcher device = true ∧
          ∃ pre post, devices = pre ++ device :: post ∧ ∀ x ∈ pre, matcher x = false) ∨
        ((∀ x ∈ devices, matcher x = false) ∧ devices.getLast? = some device)) ∧
      (autostartScanner_begin w devices).thrown = none ∧
      (autostartScanner_begin w devices).state._device = some device ∧
      (∃ tr, (autostartScanner_begin w devices).state.log = w.log ++ tr ∧
        (∀ o, Action.emit (.deviceChange o) ∉ tr) ∧
        (w._enabled = true →
          Action.decodeFromVideoDevice w.sessions.length device.deviceId ∈ tr)) ∧
      (w._enabled = false →
        autostartScanner_resume (autostartScanner_begin w devices).state device none =
          ⟨(autostartScanner_begin w devices).state.record
            [Action.emit (.deviceChange (some device))], none⟩) ∧
      (w._enabled = true → ∀ r,
        autostartScanner_resume (autostartScanner_begin w devices).state device
            (some (w.sessions.length, r)) =
          ⟨(scanFromDevice_resume (autostartScanner_begin w devices).state w.sessions.length
            r).state.record [Action.emit (.deviceChange (some device))], none⟩) := by
  obtain ⟨device, hsel, hspec⟩ := autostartDevice_spec devices hne
  obtain ⟨cr, rs, ss, st, heq, hst, -⟩ := setDevice_ok w (some device) hsafe
  have hbegin : autostartScanner_begin w devices = setDevice w (some device) := by
    simp [autostartScanner_begin, hsel]
  refine ⟨device, hsel, hspec, ?_, ?_, ?_, ?_, ?_⟩
  · rw [hbegin, heq]
  · rw [hbegin, heq]
  · refine ⟨st ++ [Action.emit (.torchCompatible false)] ++ afterStop w (some device), ?_, ?_, ?_⟩
    · rw [hbegin, heq]; simp [List.append_assoc]
    · intro o hmem
      simp only [List.mem_append, List.mem_singleton] at hmem
      rcases hmem with (hmem | hmem) | hmem
      · obtain ⟨h, hh | hh⟩ := hst _ hmem <;> cases hh
      · cases hmem
      · cases hen : w._enabled <;> simp [afterStop, hen] at hmem
    · intro hen
      simp [afterStop, hen]
  · intro _
    simp [autostartScanner_resume]
  · intro hen r
    obtain ⟨s, hs, -, hrd⟩ := setDevice_begin_session w device hsafe hwf hen
    rw [← hbegin] at hs hrd
    have hok := scanFromDevice_resume_ok hs hrd r
    simp [autostartScanner_resume, hok]

/-- C11 on the two device lists of the specification: id 2 is picked in both. -/
theorem autostart_selects_rear_or_last_witness :
    frontAndBack ≠ [] ∧ usbAndWebcam ≠ [] ∧ canStop readyState = true ∧
    autostartDevice frontAndBack = some ⟨"2", "Back Camera"⟩ ∧
    autostartDevice usbAndWebcam = some ⟨"2", "Webcam"⟩ ∧
    matcher ⟨"3", "CÂMERA TRÁS"⟩ = true ∧
    (∃ device, autostartDevice frontAndBack = some device ∧
      (autostartScanner_begin readyState frontAndBack).state._device = some device) :=
  ⟨by decide, by decide, by decide, by decide, by decide, by decide,
    (autostart_selects_rear_or_last readyState frontAndBack (by decide) (by decide) (fun _ h => nomatch h)).imp
      fun _ h => ⟨h.1, h.2.2.2.1⟩⟩

/-- C12. With an empty device list `autostartScanner` throws
`Impossible to autostart, no input devices available.` and leaves the whole state as it was: no
start is requested, the selected device is unchanged, nothing is emitted. -/
theorem autostart_without_devices_fails (w : ZXingScannerComponent) :
    autostartScanner_begin w [] =
      ⟨w, some ⟨"Error", "Impossible to autostart, no input devices available."⟩⟩ ∧
    (autostartScanner_begin w []).state._device = w._device ∧
    (autostartScanner_begin w []).state.sessions = w.sessions ∧
    (autostartScanner_begin w []).state.log = w.log :=
  ⟨rfl, rfl, rfl, rfl⟩

/-- C13. On a failure named `NotAllowedError`, `handlePermissionException` returns `false`,
sets the permission to `false` and emits `true` on `hasDevices`; on one named `NotFoundError`
it returns `null`, sets the permission to `null`, emits `false` on `hasDevices` and the fault
on `camerasNotFound`. The permission value and the fault follow on `permissionResponse` unless
that emitter was terminated before. -/
theorem permission_denied_and_not_found (w : ZXingScannerComponent) (err : JsError) :
    (err.name = "NotAllowedError" →
      (handlePermissionException w err).2 = some false ∧
      (handlePermissionException w err).1.hasPermission = some false ∧
      (handlePermissionException w err).1.log = w.log ++
        [Action.consoleError "@zxing/ngx-scanner Error when asking for permission.",
          Action.consoleWarn ("@zxing/ngx-scanner " ++ err.message),
          Action.emit (.hasDevices (some true))] ++
        (if w.permissionResponseStopped then []
          else [Action.emit (.permissionResponse (some false)),
            Action.emit (.permissionResponseError err)])) ∧
    (err.name = "NotFoundError" →
      (handlePermissionException w err).2 = none ∧
      (handlePermissionException w err).1.hasPermission = none ∧
      (handlePermissionException w err).1.log = w.log ++
        [Action.consoleError "@zxing/ngx-scanner Error when asking for permission.",
          Action.consoleWarn ("@zxing/ngx-scanner " ++ err.message),
          Action.emit (.hasDevices (some false)),
          Action.emit (.camerasNotFound (some err))] ++
        (if w.permissionResponseStopped then []
          else [Action.emit (.permissionResponse none),
            Action.emit (.permissionResponseError err)])) := by
  constructor
  · intro hn
    cases hst : w.permissionResponseStopped <;>
      simp [handlePermissionException, hn, setPermission, permissionResponse_error, hst,
        ZXingScannerComponent.record]
  · intro hn
    cases hst : w.permissionResponseStopped <;>
      simp [handlePermissionException, hn, setPermission, permissionResponse_error, hst,
        ZXingScannerComponent.record]

/-- C13 at `readyState` with a denied and a not-found failure. -/
theorem permission_denied_and_not_found_witness :
    notAllowed.name = "NotAllowedError" ∧ notFoundError.name = "NotFoundError" ∧
    (handlePermissionException readyState notAllowed).2 = some false ∧
    (handlePermissionException readyState notFoundError).2 = none :=
  ⟨rfl, rfl, ((permission_denied_and_not_found readyState notAllowed).1 rfl).1, ((permission_denied_and_not_found readyState notFoundError).2 rfl).1⟩



/-- C14 as stated fails: a failure of no recognised name (`AbortError`) goes through the
`default` arm, whose `hasDevices.next` is commented out (line 469); nothing is emitted on
`hasDevices`. -/
theorem unrecognized_failure_skips_hasDevices :
    abortError.name ≠ "NotSupportedError" ∧ abortError.name ≠ "NotAllowedError" ∧
    abortError.name ≠ "NotFoundError" ∧ abortError.name ≠ "NotReadableError" ∧
    (handlePermissionException readyState abortError).1.log = readyState.log ++
      [Action.consoleError "@zxing/ngx-scanner Error when asking for permission.",
        Action.consoleWarn
          "@zxing/ngx-scanner I was not able to define if I have permissions for camera or not.",
        Action.emit (.permissionResponse none),
        Action.emit (.permissionResponseError abortError)] ∧
    (handlePermissionException readyState abortError).1.log.all
      (fun a => match a with
        | .emit (.hasDevices _) => false
        | _ => true) = true :=
  ⟨by decide, by decide, by decide, by decide, by decide, by decide⟩

theorem handlePermissionException_eq (w : ZXingScannerComponent) (err : JsError) :
    handlePermissionException w err =
      ({ w with
          hasPermission := (permissionEffects err).2
          permissionResponseStopped := true
          log := w.log ++
            (Action.consoleError "@zxing/ngx-scanner Error when asking for permission." ::
              ((permissionEffects err).1 ++
                (if w.permissionResponseStopped then []
                  else [Action.emit (.permissionResponse (permissionEffects err).2),
                    Action.emit (.permissionResponseError err)]))) },
        (permissionEffects err).2) := by
  cases hst : w.permissionResponseStopped <;>
    simp only [handlePermissionException, permissionEffects] <;>
    split_ifs <;>
    first
      | contradiction
      | simp [setPermission, permissionResponse_error, hst, ZXingScannerComponent.record]

/-- C14, amended. For every permission failure `handlePermissionException` sets the permission
state to the value it returns. It emits a value on `hasDevices` exactly when the failure is
named `NotSupportedError`, `NotAllowedError`, `NotFoundError` or `NotReadableError`. While the
`permissionResponse` emitter has not been terminated by an earlier error, it republishes the
permission value on it. -/
theorem permission_failure_effects (w : ZXingScannerComponent) (err : JsError) :
    ∃ tr, (handlePermissionException w err).1.log = w.log ++ tr ∧
      ((err.name = "NotSupportedError" ∨ err.name = "NotAllowedError" ∨
          err.name = "NotFoundError" ∨ err.name = "NotReadableError") →
        ∃ b, Action.emit (.hasDevices b) ∈ tr) ∧
      (¬ (err.name = "NotSupportedError" ∨ err.name = "NotAllowedError" ∨
          err.name = "NotFoundError" ∨ err.name = "NotReadableError") →
        ∀ b, Action.emit (.hasDevices b) ∉ tr) ∧
      (handlePermissionException w err).1.hasPermission = (handlePermissionException w err).2 ∧
      (w.permissionResponseStopped = false →
        Action.emit (.permissionResponse (handlePermissionException w err).2) ∈ tr) := by
  rw [handlePermissionException_eq]
  refine ⟨_, rfl, ?_, ?_, rfl, ?_⟩
  · intro hn
    rcases hn with h | h | h | h
    · exact ⟨none, by simp [permissionEffects, h]⟩
    · exact ⟨some true, by simp [permissionEffects, h]⟩
    · exact ⟨some false, by simp [permissionEffects, h]⟩
    · exact ⟨some false, by simp [permissionEffects, h]⟩
  · intro hn b
    push_neg at hn
    obtain ⟨h1, h2, h3, h4⟩ := hn
    cases hst : w.permissionResponseStopped <;> simp [permissionEffects, h1, h2, h3, h4]
  · intro hst
    simp [hst]

/-- C14, amended, at `readyState` with a not-found failure. -/
theorem permission_failure_effects_witness :
    notFoundError.name = "NotFoundError" ∧ readyState.permissionResponseStopped = false ∧
    (∃ tr, (handlePermissionException readyState notFoundError).1.log = readyState.log ++ tr ∧
      (∃ b, Action.emit (.hasDevices b) ∈ tr) ∧
      Action.emit (.permissionResponse (handlePermissionException readyState notFoundError).2)
        ∈ tr) :=
  ⟨rfl, rfl, (permission_failure_effects readyState notFoundError).imp
    fun _ h => ⟨h.1, h.2.1 (Or.inr (Or.inr (Or.inl rfl))), h.2.2.2.2 rfl⟩⟩



/-- C15, the code at the failing inputs. With a session running on A, `enable = false` drops the
subscription and calls `releaseAllStreams`, but `stop()` of the control handle is never invoked
and the stream of the session is still open: `_reset` clears `_codeReader` before it assigns
the device, so `scanStop` skips `getScannerControls().stop()`. And when permission has been
refused while scanning, `enable = false` does not even drop the session: the `device` setter
that `_reset` goes through returns at its permission guard, so the subscription is still held,
device A is still selected and the session still runs. -/
theorem disable_does_not_stop_handle :
    scanningA._scanSubscription = some 0 ∧ scanningA.scannerControls 0 = some 0 ∧
    (set_enable scanningA false).log = scanningA.log ++
      [Action.emit (.torchCompatible false), Action.cleanVideoSource,
        Action.emit (.deviceChange none), Action.releaseAllStreams] ∧
    Action.ctrlsStop 0 ∉ (set_enable scanningA false).log ∧
    (set_enable scanningA false).sessions.map (fun s => (s.phase, s.scan.isStopped))
      = [(.started, false)] ∧
    deniedWhileScanning._scanSubscription = some 0 ∧
    (set_enable deniedWhileScanning false).log = deniedWhileScanning.log ++
      [Action.consoleWarn
          "Permissions not set yet, waiting for them to be set to apply device change.",
        Action.emit (.deviceChange none), Action.releaseAllStreams] ∧
    (set_enable deniedWhileScanning false)._scanSubscription = some 0 ∧
    (set_enable deniedWhileScanning false)._device = some camA ∧
    (set_enable deniedWhileScanning false).sessions.map
      (fun s => (s.phase, s.scan.isStopped, s.scan.observed)) = [(.started, false, true)] :=
  ⟨by decide, by decide, by decide, by decide, by decide, by decide, by decide, by decide,
    by decide, by decide⟩

/-- Disabling while the device setter lets the change through. When the component holds a
subscription and a code reader, is ready, not autostarting, has a device selected and permission
granted, `enable = false` leaves exactly this: scanning disabled, no code reader, no subscription
(the stream of the session unsubscribed), no selected device, and as effects
`torchCompatible(false)`, the unbinding of the display target, `deviceChange(null)` and
`releaseAllStreams`, the latter exactly once. The control handle of the session is not stopped. -/
theorem disable_drops_session_and_releases_once (w : ZXingScannerComponent) (sub rid : Nat) (a : MediaDeviceInfo)
    (hsub : w._scanSubscription = some sub) (hrd : w._codeReader = some rid)
    (hready : w._ready = true) (hauto : w._isAutostarting = false)
    (hdev : w._device = some a) (hperm : w.hasPermission = some true) :
    set_enable w false =
      { w with
        _enabled := false
        _codeReader := none
        _scanSubscription := none
        _device := none
        sessions := (unsubscribe w sub).sessions
        log := w.log ++ [Action.emit (.torchCompatible false), Action.cleanVideoSource,
          Action.emit (.deviceChange none), Action.releaseAllStreams] } ∧
    ((set_enable w false).log.drop w.log.length).count Action.releaseAllStreams = 1 ∧
    (∀ h, Action.ctrlsStop h ∉ (set_enable w false).log.drop w.log.length) := by
  have hmain : set_enable w false =
      { w with
        _enabled := false
        _codeReader := none
        _scanSubscription := none
        _device := none
        sessions := (unsubscribe w sub).sessions
        log := w.log ++ [Action.emit (.torchCompatible false), Action.cleanVideoSource,
          Action.emit (.deviceChange none), Action.releaseAllStreams] } := by
    have hcur : isCurrentDevice { w with _enabled := false, _codeReader := none } none = false := by
      simp [isCurrentDevice, hdev]
    simp only [set_enable, reset, _reset, hrd, Bool.not_false, if_true]
    rw [set_device_delegates none (by exact hready) (by exact hauto) hcur (by exact hperm)]
    cases hs : w.sessions[sub]? <;>
      simp [setDevice, scanStop, hsub, unsubscribe, hs, ZXingScannerComponent.record]
  refine ⟨hmain, ?_, ?_⟩
  · rw [hmain]; simp [List.count_cons]
  · intro h
    rw [hmain]; simp

/-- Disabling at `scanningA`. -/
theorem disable_drops_session_and_releases_once_witness :
    scanningA._scanSubscription = some 0 ∧ scanningA._codeReader = some 0 ∧
    scanningA._ready = true ∧ scanningA._isAutostarting = false ∧
    scanningA._device = some camA ∧ scanningA.hasPermission = some true ∧
    ((set_enable scanningA false).log.drop scanningA.log.length).count
      Action.releaseAllStreams = 1 :=
  ⟨rfl, rfl, rfl, rfl, rfl, rfl, (disable_drops_session_and_releases_once scanningA 0 0 camA rfl rfl rfl rfl rfl rfl).2.1⟩

/-- C16. For a stream event that carries a decoded result, `_onDecodeResult` emits the text of
the result on `scanSuccess` and then the full result on `scanComplete`, and nothing on
`scanFailure`; the text `ABC123` is emitted for a result with that text. -/
theorem decode_result_outputs (w : ZXingScannerComponent) (result : Result) (error : Option JsError) :
    _onDecodeResult w (some result) error =
      w.record [Action.emit (.scanSuccess result.text),
        Action.emit (.scanComplete (some result))] ∧
    (∀ reason, Action.emit (.scanFailure reason) ∉
      (_onDecodeResult w (some result) error).log.drop w.log.length) ∧
    (_onDecodeResult w (some ⟨"ABC123"⟩) error).log =
      w.log ++ [Action.emit (.scanSuccess "ABC123"),
        Action.emit (.scanComplete (some ⟨"ABC123"⟩))] := by
  refine ⟨?_, ?_, ?_⟩
  · rw [_onDecodeResult_eq]; rfl
  · intro reason
    simp [_onDecodeResult_eq, decodeResultOutputs]
  · simp [_onDecodeResult_eq, decodeResultOutputs]

/-- C17. For a stream event without a decoded result, `_onDecodeResult` emits the reason (absent
or not) on `scanFailure` and then an event on `scanComplete`, and nothing else. For a fatal
fault, `dispatchScanError` (which is all `_onDecodeError` does) emits the fault on `scanError`
whether or not anything listens there, after a console error and a console warning when nothing
does, and emits on no other output. -/
theorem decode_miss_and_fault_outputs (w : ZXingScannerComponent) (reason : Option JsError) (fault : JsError) :
    _onDecodeResult w none reason =
      w.record [Action.emit (.scanFailure reason), Action.emit (.scanComplete none)] ∧
    dispatchScanError w fault =
      w.record ((if w.scanErrorObserved then []
          else [Action.consoleError ("zxing scanner component: " ++ fault.name),
            Action.consoleWarn "Use the `(scanError)` property to handle errors like this!"]) ++
        [Action.emit (.scanError fault)]) ∧
    _onDecodeError w fault = dispatchScanError w fault := by
  refine ⟨?_, ?_, rfl⟩
  · rw [_onDecodeResult_eq]; rfl
  · cases h : w.scanErrorObserved <;> simp [dispatchScanError, h, ZXingScannerComponent.record]

/-- The guards of `scanStart`. It throws `There is already a scan process running.` exactly when
the component holds a scan subscription; otherwise it throws `No device defined, cannot start
scan, please define a device.` exactly when no device is selected; otherwise it requests a session
on the selected device. Whenever it throws the state is unchanged. -/
theorem scanStart_guards (w : ZXingScannerComponent) :
    ((scanStart w).thrown = some ⟨"Error", "There is already a scan process running."⟩ ↔
      w._scanSubscription ≠ none) ∧
    (w._scanSubscription = none →
      ((scanStart w).thrown =
          some ⟨"Error", "No device defined, cannot start scan, please define a device."⟩ ↔
        w._device = none)) ∧
    (∀ device, w._scanSubscription = none → w._device = some device →
      scanStart w = ⟨scanFromDevice_begin w device.deviceId, none⟩ ∧
      (scanStart w).state.log =
        w.log ++ [Action.decodeFromVideoDevice w.sessions.length device.deviceId]) ∧
    ((scanStart w).thrown ≠ none → (scanStart w).state = w) := by
  cases hsub : w._scanSubscription with
  | some sub => simp [scanStart, hsub, alreadyScanning]
  | none =>
    cases hdev : w._device with
    | none => simp [scanStart, hsub, hdev, noDeviceDefined]
    | some d =>
      simp [scanStart, hsub, hdev, scanFromDevice_begin, scanFromDeviceObservable_begin]
      cases hrd : w._codeReader <;> simp [getCodeReader, hrd]

/-- The guards of `scanStart` at `scanningA` (already scanning) and at `readyState` (no device).
-/
theorem scanStart_guards_witness :
    scanningA._scanSubscription ≠ none ∧
    (scanStart scanningA).thrown = some ⟨"Error", "There is already a scan process running."⟩ ∧
    readyState._scanSubscription = none ∧
    (scanStart readyState).thrown =
      some ⟨"Error", "No device defined, cannot start scan, please define a device."⟩ :=
  ⟨by decide, (scanStart_guards scanningA).1.mpr (by decide), rfl, ((scanStart_guards readyState).2.1 rfl).mpr rfl⟩

/-- C19 as stated fails: with no subscription and no session at all, `scanStop` still emits
`false` on `torchCompatible` (line 333 is outside the `if`). -/
theorem scanStop_emits_when_idle :
    readyState._scanSubscription = none ∧ readyState.sessions = [] ∧
    (scanStop readyState).state.log =
      readyState.log ++ [Action.emit (.torchCompatible false)] :=
  ⟨rfl, rfl, rfl⟩

/-- C19, amended. In every state in which `scanStop` does not throw (no subscription is held, or
there is no code reader, or the code reader has a control handle stored) it raises nothing.
With no subscription held it changes no field of the state and emits only `false` on
`torchCompatible`. Called twice in a row, the second call leaves the state of the first and
emits only `false` on `torchCompatible` again. -/
theorem scanStop_idempotent (w : ZXingScannerComponent) :
    (canStop w = true → (scanStop w).thrown = none) ∧
    (w._scanSubscription = none →
      scanStop w = ⟨w.record [Action.emit (.torchCompatible false)], none⟩) ∧
    (canStop w = true →
      scanStop (scanStop w).state =
        ⟨(scanStop w).state.record [Action.emit (.torchCompatible false)], none⟩) := by
  refine ⟨?_, ?_, ?_⟩
  · intro hsafe
    obtain ⟨ss, st, heq, -, -, -⟩ := scanStop_ok w hsafe
    rw [heq]
  · intro hsub
    simp [scanStop, hsub]
  · intro hsafe
    obtain ⟨ss, st, heq, -, -, -⟩ := scanStop_ok w hsafe
    rw [heq]
    simp [scanStop]

/-- C19, amended, at `scanningA`. -/
theorem scanStop_idempotent_witness :
    canStop scanningA = true ∧ (scanStop scanningA).thrown = none ∧
    scanStop (scanStop scanningA).state =
      ⟨(scanStop scanningA).state.record [Action.emit (.torchCompatible false)], none⟩ :=
  ⟨by decide, (scanStop_idempotent scanningA).1 (by decide), (scanStop_idempotent scanningA).2.2 (by decide)⟩

/-- C20, the code at the failing input: in the initialised state `scanningA`, with device A
selected and session 0 running, `restart()` only clears `_codeReader`. Nothing is stopped or
started, the subscription of session 0 is still held and the sessions are untouched: `restart`
clears `_codeReader` itself, so `_reset` returns at its first line and `prevDevice` is
undefined. -/
theorem restart_only_drops_reader :
    scanningA._ready = true ∧ scanningA._device = some camA ∧
    scanningA._scanSubscription = some 0 ∧
    restart scanningA = { scanningA with _codeReader := none } ∧
    (restart scanningA).log = scanningA.log ∧
    (restart scanningA)._scanSubscription = some 0 ∧
    (restart scanningA).sessions = scanningA.sessions :=
  ⟨rfl, rfl, rfl, by decide, by decide, by decide, by decide⟩

/-! ## Initialisation to the end, the invariants, faults after the start, formats -/

theorem updateVideoInputDevices_resume_frame (w : ZXingScannerComponent)
    (devices : List MediaDeviceInfo) :
    ∃ tr, updateVideoInputDevices_resume w devices = w.record tr ∧
      ∀ a ∈ tr, ∃ o, a = Action.emit o := by
  unfold updateVideoInputDevices_resume
  by_cases h : devices.length > 0
  · exact ⟨_, by simp [h]; rfl, by simp⟩
  · refine ⟨[.emit (.hasDevices (some false)), .emit (.camerasFound devices),
      .emit (.camerasNotFound none)], by simp [h, ZXingScannerComponent.record], by simp⟩

theorem askForPermission_begin_isAutostarting (w : ZXingScannerComponent) :
    (askForPermission_begin w)._isAutostarting = w._isAutostarting ∧
    ∃ tr, (askForPermission_begin w).log = w.log ++ tr ∧
      ∀ b, Action.emit (.autostarting b) ∉ tr := by
  unfold askForPermission_begin setPermission
  by_cases h1 : w.hasNavigator <;> by_cases h2 : w.isMediaDevicesSupported <;>
    by_cases h3 : w.permissionResponseStopped <;>
    simp [h1, h2, h3, ZXingScannerComponent.record]

/-- C21, the code at the failing input: a component with autostart off whose `device` input
received device A before initialisation keeps A in `_devicePreStart`. `init()` then warns, emits
`false` on `autostarting`, requests the device list and nothing else (no permission request),
and marks the component ready; but no device is selected and no session is opened, neither at
the return of `init()` nor when the device list arrives. Line 278 binds the stored device only
if a device is selected already, which is never the case at this point. -/
theorem init_autostart_off_leaves_preselected_unbound :
    preselectedA._ready = false ∧ preselectedA._devicePreStart = some camA ∧
    (init_begin preselectedA)._ready = true ∧
    (init_begin preselectedA).log =
      [Action.consoleWarn
          "Feature 'autostart' disabled. Permissions and devices recovery has to be run manually.",
        Action.emit (.autostarting false), Action.listVideoInputDevices] ∧
    (init_begin preselectedA)._devicePreStart = some camA ∧
    (init_begin preselectedA)._device = none ∧
    (init_begin preselectedA).sessions = [] ∧
    (∀ devices, (updateVideoInputDevices_resume (init_begin preselectedA) devices)._device = none ∧
      (updateVideoInputDevices_resume (init_begin preselectedA) devices).sessions = []) := by
  refine ⟨by decide, by decide, by decide, by decide, by decide, by decide, by decide, ?_⟩
  intro devices
  obtain ⟨tr, h, -⟩ := updateVideoInputDevices_resume_frame (init_begin preselectedA) devices
  rw [h]
  refine ⟨?_, ?_⟩
  · show (init_begin preselectedA)._device = none
    decide
  · show (init_begin preselectedA).sessions = []
    decide

/-- C22, the code at the failing inputs. When the promise of `askForPermission` rejects,
`initAutostartOn` logs and returns from the `catch` block: in every state `isAutostarting` is
still `true` and `false` has not been emitted on `autostarting` after the initial `true`; on a
new component `init` then marks the component ready with `isAutostarting` still `true`. When
permission is granted and the device list is empty, `autostartScanner` throws, so
`initAutostartOn` throws to its caller, again with `isAutostarting` still `true` and no `false`
emitted. -/
theorem initAutostartOn_can_leave_autostarting_set :
    (∀ (w : ZXingScannerComponent) (e : JsError),
      (initAutostartOn_afterPermission (initAutostartOn_begin w) (.error e))._isAutostarting = true ∧
      ∃ tr, (initAutostartOn_afterPermission (initAutostartOn_begin w) (.error e)).log =
          w.log ++ Action.emit (.autostarting true) :: tr ∧
        Action.emit (.autostarting false) ∉ tr) ∧
    (init_end (initAutostartOn_afterPermission askingPermission (.error abortError)))._ready = true ∧
    (init_end (initAutostartOn_afterPermission askingPermission
      (.error abortError)))._isAutostarting = true ∧
    (initAutostartOn_afterDevices
      (initAutostartOn_afterPermission (askForPermission_resume askingPermission (.ok ())).1
        (.ok (some true))) []).thrown = some noInputDevices ∧
    (initAutostartOn_afterDevices
      (initAutostartOn_afterPermission (askForPermission_resume askingPermission (.ok ())).1
        (.ok (some true))) []).state._isAutostarting = true ∧
    Action.emit (.autostarting false) ∉ (initAutostartOn_afterDevices
      (initAutostartOn_afterPermission (askForPermission_resume askingPermission (.ok ())).1
        (.ok (some true))) []).state.log := by
  refine ⟨?_, by decide, by decide, by decide, by decide, by decide⟩
  intro w e
  obtain ⟨h1, tr, h2, h3⟩ := askForPermission_begin_isAutostarting (set_isAutostarting w true)
  refine ⟨?_, tr ++ [.consoleError "Exception occurred while asking for permission:"], ?_, ?_⟩
  · show (askForPermission_begin (set_isAutostarting w true))._isAutostarting = true
    rw [h1]; rfl
  · show (askForPermission_begin (set_isAutostarting w true)).log ++ _ = _
    rw [h2]; simp [set_isAutostarting, ZXingScannerComponent.record]
  · simp [h3]

/-- C23, the code at the failing input: while scanning on A (one session started, its handle
not stopped), assigning `true` to `enable` requests a second start on A without stopping
anything; once that start has succeeded two sessions are started with their streams open, no
handle has been stopped, and the reader stores only the handle of the second one. -/
theorem enable_while_scanning_leaves_two_sessions :
    scanningA._device = some camA ∧ activeSessions scanningA = [0] ∧
    enabledAgain.log = scanningA.log ++ [Action.decodeFromVideoDevice 1 "A"] ∧
    activeSessions twoSessions = [0, 1] ∧
    twoSessions.sessions.map (fun s => (s.phase, s.scan.isStopped)) =
      [(.started, false), (.started, false)] ∧
    (∀ a ∈ twoSessions.log, ∀ h, a ≠ Action.ctrlsStop h) ∧
    twoSessions.scannerControls 0 = some 1 ∧ twoSessions._scanSubscription = some 1 := by
  refine ⟨by decide, by decide, by decide, by decide, by decide, ?_, by decide, by decide⟩
  intro a ha h
  have : a ∈ twoSessions.log.filter (fun a => match a with | .ctrlsStop _ => false | _ => true) := by
    have hl : twoSessions.log.filter (fun a => match a with | .ctrlsStop _ => false | _ => true)
        = twoSessions.log := by decide
    rw [hl]; exact ha
  intro heq
  subst heq
  simp at this

/-- C24 as stated fails in each part. After `scanStop()` the component is enabled, has device A
selected and permission granted, and holds no session. When a further permission request is
refused while scanning, the session stays current with permission denied. And with permission
denied and no session held, `scanStart` and the assignment of `true` to `enable` both request a
start on the selected device, which becomes the current session when the start succeeds. All
these states are reached from a new component through `init`, `askForPermission`, the `device`
input, `scanStop`, `scanStart` and `enable`. -/
theorem session_not_tied_to_conditions :
    manualScanning._scanSubscription = some 0 ∧ (scanStop manualScanning).thrown = none ∧
    conditions manualStopped = (true, some camA, some true) ∧
    manualStopped._scanSubscription = none ∧ activeSessions manualStopped = [] ∧
    deniedWhileScanning.hasPermission = some false ∧
    deniedWhileScanning._scanSubscription = some 0 ∧ activeSessions deniedWhileScanning = [0] ∧
    deniedStopped.hasPermission = some false ∧ deniedStopped._scanSubscription = none ∧
    (scanStart deniedStopped).thrown = none ∧
    (scanStart deniedStopped).state.log =
      deniedStopped.log ++ [Action.decodeFromVideoDevice 1 "A"] ∧
    (set_enable deniedStopped true).log =
      deniedStopped.log ++ [Action.decodeFromVideoDevice 1 "A"] ∧
    (scanFromDevice_resume (scanStart deniedStopped).state 1 (.ok ⟨false⟩)).state._scanSubscription
      = some 1 ∧
    conditions (scanFromDevice_resume (scanStart deniedStopped).state 1 (.ok ⟨false⟩)).state
      = (true, some camA, some false) :=
  ⟨by decide, by decide, by decide, by decide, by decide, by decide, by decide, by decide,
    by decide, by decide, by decide, by decide, by decide, by decide, by decide⟩

theorem conditions_record (w : ZXingScannerComponent) (as : List Action) :
    conditions (w.record as) = conditions w := rfl

theorem conditions_scan_error (w : ZXingScannerComponent) (sid : Nat) (e : JsError) :
    conditions (scan_error w sid e) = conditions w := by
  unfold scan_error
  split
  · rfl
  · split_ifs <;> first | rfl | (rw [_onDecodeError_eq]; rfl)

theorem conditions_scan_complete (w : ZXingScannerComponent) (sid : Nat) :
    conditions (scan_complete w sid) = conditions w := by
  unfold scan_complete
  split
  · rfl
  · split_ifs <;> rfl

theorem conditions_subscribe (w : ZXingScannerComponent) (sid : Nat) :
    conditions (subscribe w sid) = conditions w := by
  unfold subscribe
  split
  · rfl
  · split
    · rw [_onDecodeError_eq]; rfl
    · split_ifs
      · rfl
      · simp only []
        rw [_onDecodeResult_eq]; rfl

theorem conditions_observable_resume (w : ZXingScannerComponent) (sid : Nat)
    (r : Except JsError IScannerControls) :
    conditions (scanFromDeviceObservable_resume w sid r) = conditions w := by
  unfold scanFromDeviceObservable_resume
  split
  · rfl
  · split
    · rfl
    · simp only []
      split
      · show conditions (wrappedStop _ _) = _
        unfold wrappedStop
        rw [conditions_scan_complete, conditions_record, conditions_scan_error]
        rfl
      · show conditions (scan_error _ _ _) = _
        rw [conditions_scan_error]
        rfl

theorem conditions_resume (w : ZXingScannerComponent) (sid : Nat)
    (r : Except JsError IScannerControls) :
    conditions (scanFromDevice_resume w sid r).state = conditions w := by
  unfold scanFromDevice_resume
  simp only []
  split
  · exact conditions_observable_resume w sid r
  · have h : conditions { subscribe (scanFromDeviceObservable_resume w sid r) sid with
        _scanSubscription := some sid } = conditions w := by
      show conditions (subscribe (scanFromDeviceObservable_resume w sid r) sid) = _
      rw [conditions_subscribe, conditions_observable_resume]
    split_ifs
    · exact h
    · split
      · exact h
      · rw [conditions_record]; exact h

theorem scanFromDevice_resume_subscription {w : ZXingScannerComponent} {sid : Nat} {s : Session}
    (hs : w.sessions[sid]? = some s) (ctrls : IScannerControls) :
    (scanFromDevice_resume w sid (.ok ctrls)).state._scanSubscription = some sid := by
  have hlt := lt_of_getElem?_eq_some hs
  simp only [scanFromDevice_resume, scanFromDeviceObservable_resume, hs]
  simp only [List.getElem?_set_self hlt]
  split_ifs <;> try rfl
  split <;> rfl

theorem set_device_blocked (w : ZXingScannerComponent) (d : Option MediaDeviceInfo)
    (h : ¬ (w._ready = true ∧ w._isAutostarting = false ∧ isCurrentDevice w d = false ∧
      w.hasPermission = some true ∧ canStop w = true)) :
    (set_device w d).sessions = w.sessions ∧ (set_device w d)._device = w._device ∧
    (set_device w d)._scanSubscription = w._scanSubscription ∧
    ∃ tr, (set_device w d).log = w.log ++ tr ∧
      ∀ a ∈ tr, (∃ m, a = Action.consoleWarn m) ∨ (∃ e, a = Action.unhandledRejection e) := by
  cases hr : w._ready
  · rw [set_device_notReady d hr]
    exact ⟨rfl, rfl, rfl, [], by simp, by simp⟩
  cases ha : w._isAutostarting
  swap
  · rw [set_device_autostarting d hr ha]
    exact ⟨rfl, rfl, rfl, _, rfl, by simp⟩
  cases hc : isCurrentDevice w d
  swap
  · rw [set_device_current d hr ha hc]
    exact ⟨rfl, rfl, rfl, _, rfl, by simp⟩
  by_cases hp : w.hasPermission = some true
  swap
  · rw [set_device_noPermission d hr ha hc hp]
    exact ⟨rfl, rfl, rfl, _, rfl, by simp⟩
  have hs : canStop w = false := by
    cases hcs : canStop w
    · rfl
    · exact absurd ⟨hr, ha, hc, hp, hcs⟩ h
  rw [set_device_delegates d hr ha hc hp, setDevice_throws w d hs]
  exact ⟨rfl, rfl, rfl, _, rfl, by simp⟩

/-- C24, amended. The `device` setter requests the start of a session if and only if the
component is ready, not autostarting, the device differs from the selected one, permission is
granted, `scanStop` does not raise, scanning is enabled and a device is given. When it does, the
device is the selected one and, once the start succeeds, the new session is the current
session, with scanning enabled, that device selected and permission granted. While permission
is unresolved or denied the `device` setter opens no session, requests no start and leaves the
selected device and the current session as they are, and the autostart sequence, told that
permission was not granted, only concludes: it requests no device list, selects no device and
starts nothing. -/
theorem starts_need_permission (w : ZXingScannerComponent) (d : Option MediaDeviceInfo) :
    ((∃ n id, Action.decodeFromVideoDevice n id ∈ (set_device w d).log.drop w.log.length) ↔
      (w._ready = true ∧ w._isAutostarting = false ∧ isCurrentDevice w d = false ∧
        w.hasPermission = some true ∧ canStop w = true ∧ w._enabled = true ∧
        ∃ dev, d = some dev)) ∧
    (∀ dev, d = some dev →
      (w._ready = true ∧ w._isAutostarting = false ∧ isCurrentDevice w d = false ∧
        w.hasPermission = some true ∧ canStop w = true ∧ w._enabled = true) →
      (∀ rid, w._codeReader = some rid → rid < w.readers.length) →
      conditions (set_device w d) = (true, some dev, some true) ∧
      ∃ s, (set_device w d).sessions[w.sessions.length]? = some s ∧ s.deviceId = dev.deviceId ∧
        ∀ ctrls,
          (scanFromDevice_resume (set_device w d) w.sessions.length (.ok ctrls)).thrown = none ∧
          (scanFromDevice_resume (set_device w d) w.sessions.length
            (.ok ctrls)).state._scanSubscription = some w.sessions.length ∧
          conditions (scanFromDevice_resume (set_device w d) w.sessions.length
            (.ok ctrls)).state = (true, some dev, some true)) ∧
    (w.hasPermission ≠ some true →
      (set_device w d).sessions = w.sessions ∧ (set_device w d)._device = w._device ∧
      (set_device w d)._scanSubscription = w._scanSubscription ∧
      ∀ n id, Action.decodeFromVideoDevice n id ∉ (set_device w d).log.drop w.log.length) ∧
    (∀ p, p ≠ some true →
      initAutostartOn_afterPermission w (.ok p) =
        (set_isAutostarting w false).record [Action.emit .autostarted]) := by
  have hno : ¬ (w._ready = true ∧ w._isAutostarting = false ∧ isCurrentDevice w d = false ∧
      w.hasPermission = some true ∧ canStop w = true) →
      (set_device w d).sessions = w.sessions ∧ (set_device w d)._device = w._device ∧
      (set_device w d)._scanSubscription = w._scanSubscription ∧
      ∀ n id, Action.decodeFromVideoDevice n id ∉ (set_device w d).log.drop w.log.length := by
    intro h
    obtain ⟨hss, hdv, hsb, tr, hlog, htr⟩ := set_device_blocked w d h
    refine ⟨hss, hdv, hsb, ?_⟩
    intro n id hmem
    rw [hlog, List.drop_left] at hmem
    rcases htr _ hmem with ⟨m, hm⟩ | ⟨e, he⟩
    · cases hm
    · cases he
  refine ⟨⟨?_, ?_⟩, ?_, ?_, ?_⟩
  · rintro ⟨n, id, hmem⟩
    by_cases h : w._ready = true ∧ w._isAutostarting = false ∧ isCurrentDevice w d = false ∧
      w.hasPermission = some true ∧ canStop w = true
    · obtain ⟨hr, ha, hc, hp, hs⟩ := h
      refine ⟨hr, ha, hc, hp, hs, ?_⟩
      obtain ⟨cr, rs, ss, st, heq, hst, -⟩ := setDevice_ok w d hs
      rw [set_device_delegates d hr ha hc hp, heq] at hmem
      simp only [List.append_assoc, List.drop_left] at hmem
      rcases List.mem_append.1 hmem with h1 | h1
      · rcases hst _ h1 with ⟨h, hh | hh⟩ <;> cases hh
      · rcases List.mem_append.1 h1 with h2 | h2
        · simp at h2
        · cases d with
          | none => simp [afterStop] at h2
          | some dev =>
            cases hen : w._enabled
            · simp [afterStop, hen] at h2
            · exact ⟨rfl, dev, rfl⟩
    · exact absurd hmem ((hno h).2.2.2 n id)
  · rintro ⟨hr, ha, hc, hp, hs, hen, dev, rfl⟩
    obtain ⟨cr, rs, ss, st, heq, -, -⟩ := setDevice_ok w (some dev) hs
    refine ⟨w.sessions.length, dev.deviceId, ?_⟩
    rw [set_device_delegates _ hr ha hc hp, heq]
    simp only [List.append_assoc, List.drop_left]
    simp [afterStop, hen]
  · rintro dev rfl ⟨hr, ha, hc, hp, hs, hen⟩ hwf
    obtain ⟨cr, rs, ss, st, heq, -, -⟩ := setDevice_ok w (some dev) hs
    obtain ⟨s, hsess, hdev, hrd⟩ := setDevice_begin_session w dev hs hwf hen
    have hset : set_device w (some dev) = (setDevice w (some dev)).state := by
      rw [set_device_delegates _ hr ha hc hp, heq]
    have hcond : conditions (set_device w (some dev)) = (true, some dev, some true) := by
      rw [hset, heq]
      simp [conditions, hen, hp]
    rw [hset] at hcond ⊢
    refine ⟨hcond, s, hsess, hdev, ?_⟩
    intro ctrls
    exact ⟨scanFromDevice_resume_ok hsess hrd _, scanFromDevice_resume_subscription hsess ctrls,
      by rw [conditions_resume, hcond]⟩
  · intro hp
    exact hno (fun h => hp h.2.2.2.1)
  · intro p hp
    simp [initAutostartOn_afterPermission, hp]

/-- C24, amended, at `manualReady` with device A, and at a new component, whose permission is
unresolved. -/
theorem starts_need_permission_witness :
    (manualReady._ready = true ∧ manualReady._isAutostarting = false ∧
      isCurrentDevice manualReady (some camA) = false ∧ manualReady.hasPermission = some true ∧
      canStop manualReady = true ∧ manualReady._enabled = true) ∧
    (∀ rid, manualReady._codeReader = some rid → rid < manualReady.readers.length) ∧
    (∃ n id, Action.decodeFromVideoDevice n id ∈
      (set_device manualReady (some camA)).log.drop manualReady.log.length) ∧
    conditions (set_device manualReady (some camA)) = (true, some camA, some true) ∧
    constructor.hasPermission ≠ some true ∧
    (set_device constructor (some camA)).sessions = constructor.sessions :=
  ⟨⟨by decide, by decide, by decide, by decide, by decide, by decide⟩,
    by decide,
    (starts_need_permission manualReady (some camA)).1.2
      ⟨by decide, by decide, by decide, by decide, by decide, by decide, camA, rfl⟩,
    ((starts_need_permission manualReady (some camA)).2.1 camA rfl
      ⟨by decide, by decide, by decide, by decide, by decide, by decide⟩ (by decide)).1,
    by decide,
    ((starts_need_permission constructor (some camA)).2.2.1 (by decide)).1⟩

/-- C25, the code at the failing input: a fatal decode fault while scanning on A is delivered
on `scanError`, but the component still holds the subscription of session 0 while the reader
has cleared its handle. So `scanStart` fails with 'There is already a scan process running.',
`scanStop` raises 'No scanning is running at the time.' and changes nothing, and assigning
device B ends in an unhandled rejection with device A still selected. -/
theorem fatal_fault_keeps_subscription :
    Action.emit (.scanError deviceLost) ∈ faultedA.log ∧
    faultedA._scanSubscription = some 0 ∧
    getScannerControls faultedA 0 = .error noScanningRunning ∧
    (scanStart faultedA).thrown = some alreadyScanning ∧
    (scanStop faultedA).thrown = some noScanningRunning ∧
    (scanStop faultedA).state = faultedA ∧
    set_device faultedA (some camB) =
      faultedA.record [Action.unhandledRejection noScanningRunning] ∧
    (set_device faultedA (some camB))._device = some camA := by
  refine ⟨by decide, by decide, rfl, by decide, by decide, by decide, by decide, by decide⟩

theorem wrappedStop_after {w : ZXingScannerComponent} {sid : Nat} {s : Session}
    (hs : w.sessions[sid]? = some s) :
    ∃ s', (wrappedStop w sid).sessions[sid]? = some s' ∧ s'.scan.isStopped = true ∧
      s'.reader = s.reader ∧ (wrappedStop w sid).readers = w.readers := by
  have hlt := lt_of_getElem?_eq_some hs
  cases hst : s.scan.isStopped
  · rw [wrappedStop_open hs hst]
    exact ⟨{ s with scan := { s.scan with isStopped := true, observed := false } },
      by simp [hlt], rfl, rfl, rfl⟩
  · rw [wrappedStop_closed (fun s' h' => by rw [hs] at h'; cases h'; exact hst)]
    exact ⟨s, hs, hst, rfl, rfl⟩

/-- C26, the code at the failing input: after the wrapped `stop()` while scanning on A the reader
still stores the handle (`getScannerControls` returns it), and a fatal callback that fires
afterwards invokes `stop()` of the underlying handle a second time. -/
theorem stop_keeps_handle_and_late_fault_stops_again :
    (wrappedStop scanningA 0).log =
      scanningA.log ++ [Action.ctrlsStop 0, Action.stream 0 .complete] ∧
    getScannerControls (wrappedStop scanningA 0) 0 = .ok 0 ∧
    (decodeCallback (wrappedStop scanningA 0) 0 none (some deviceLost)).state.log =
      (wrappedStop scanningA 0).log ++ [Action.ctrlsStop 0] ∧
    (decodeCallback (wrappedStop scanningA 0) 0 none (some deviceLost)).state.log.count
      (Action.ctrlsStop 0) = 2 :=
  ⟨by decide, rfl, by decide, by decide⟩

/-- Callbacks after the stop. After the wrapped `stop()` of a session whose handle is the one
stored in its reader, the handle stays stored (`getScannerControls` returns it). The callbacks
that fire afterwards deliver no event on the stream, whatever they carry. A callback without a
fatal error raises nothing, invokes no stop and leaves the stored handle. A callback with a fatal
error raises nothing, invokes `stop()` of the underlying handle once more and clears the stored
handle. -/
theorem callbacks_after_stop (w : ZXingScannerComponent) (sid : Nat) (s : Session)
    (hs : w.sessions[sid]? = some s) (hctl : w.scannerControls s.reader = some sid) :
    getScannerControls (wrappedStop w sid) s.reader = .ok sid ∧
    (∀ cbs, streamOf sid (runCallbacks (wrappedStop w sid) sid cbs).log =
      streamOf sid (wrappedStop w sid).log) ∧
    (∀ result error, isFatal error = false →
      (decodeCallback (wrappedStop w sid) sid result error).thrown = none ∧
      (decodeCallback (wrappedStop w sid) sid result error).state.log = (wrappedStop w sid).log ∧
      (decodeCallback (wrappedStop w sid) sid result error).state.readers =
        (wrappedStop w sid).readers) ∧
    (∀ result e, isBenign e = false →
      (decodeCallback (wrappedStop w sid) sid result (some e)).thrown = none ∧
      (decodeCallback (wrappedStop w sid) sid result (some e)).state.log =
        (wrappedStop w sid).log ++ [Action.ctrlsStop sid] ∧
      getScannerControls (decodeCallback (wrappedStop w sid) sid result (some e)).state s.reader =
        .error noScanningRunning) := by
  obtain ⟨s', hs', hst', hrd', hreaders⟩ := wrappedStop_after hs
  have hctl' : (wrappedStop w sid).scannerControls s'.reader = some sid := by
    rw [hrd', scannerControls_congr hreaders]; exact hctl
  refine ⟨?_, ?_, ?_, ?_⟩
  · rw [getScannerControls_eq, ← hrd', hctl']
  · intro cbs
    exact runCallbacks_stopped sid cbs _ s' hs' hst'
  · intro result error hnf
    have hnext : ∀ v, (scan_next (wrappedStop w sid) sid v).log = (wrappedStop w sid).log ∧
        (scan_next (wrappedStop w sid) sid v).readers = (wrappedStop w sid).readers := by
      intro v
      rw [scan_next_eq hs' v]
      simp [hst']
    cases error with
    | none =>
      have key : decodeCallback (wrappedStop w sid) sid result none =
          ⟨scan_next (wrappedStop w sid) sid ⟨result, none⟩, none⟩ := by
        simp only [decodeCallback, hs']
      rw [key]
      exact ⟨rfl, (hnext _).1, (hnext _).2⟩
    | some e =>
      have hb : isBenign e = true := by simpa [isFatal] using hnf
      have key : decodeCallback (wrappedStop w sid) sid result (some e) =
          ⟨scan_next (wrappedStop w sid) sid ⟨none, some e⟩, none⟩ := by
        simp only [decodeCallback, hs', hb, if_true]
      rw [key]
      exact ⟨rfl, (hnext _).1, (hnext _).2⟩
  · intro result e hb
    have h1 : scan_error (wrappedStop w sid) sid e = wrappedStop w sid :=
      scan_error_stopped hs' hst' e
    have h2 : wrappedStop (wrappedStop w sid) sid =
        (wrappedStop w sid).record [Action.ctrlsStop sid] :=
      wrappedStop_closed (fun t ht => by rw [hs'] at ht; cases ht; exact hst')
    have key : decodeCallback (wrappedStop w sid) sid result (some e) =
        ⟨{ (wrappedStop w sid).record [Action.ctrlsStop sid] with
            readers := ((wrappedStop w sid).record [Action.ctrlsStop sid]).readers.set
              s'.reader none }, none⟩ := by
      simp only [decodeCallback, hs', hb, h1, hctl', h2]
      rfl
    rw [key]
    refine ⟨rfl, rfl, ?_⟩
    rw [getScannerControls_eq, ← hrd', scannerControls_set_none]

/-- Callbacks after the stop at `scanningA`. -/
theorem callbacks_after_stop_witness :
    scanningA.sessions[0]? = some sessionA ∧ scanningA.scannerControls sessionA.reader = some 0 ∧
    getScannerControls (wrappedStop scanningA 0) sessionA.reader = .ok 0 ∧
    (∀ cbs, streamOf 0 (runCallbacks (wrappedStop scanningA 0) 0 cbs).log =
      streamOf 0 (wrappedStop scanningA 0).log) :=
  ⟨by decide, by decide,
    (callbacks_after_stop scanningA 0 sessionA (by decide) (by decide)).1,
    (callbacks_after_stop scanningA 0 sessionA (by decide) (by decide)).2.1⟩

/-- C27, the code at the failing input: the `formats` setter throws on a plain string and leaves
the formats as they were, and a known name is resolved after trimming and upper-casing; but for
`'qr'`, which names no format, `getBarcodeFormatOrFail` returns `undefined` without failing, and
the setter given `['QR_CODE', 'qr']` raises nothing and registers `[QR_CODE, undefined]`. The
setter given an array never raises. -/
theorem formats_setter_registers_undefined :
    (set_formats constructor (.string "QR_CODE")).thrown = some invalidFormats ∧
    (set_formats constructor (.string "QR_CODE")).state.formats = constructor.formats ∧
    getBarcodeFormatOrFail (.name " qr_code ") = .format 11 ∧
    getBarcodeFormatOrFail (.name "qr") = .undefined ∧
    (set_formats constructor (.array [.name "QR_CODE", .name "qr"])).thrown = none ∧
    (set_formats constructor (.array [.name "QR_CODE", .name "qr"])).state.formats =
      [.format 11, .undefined] ∧
    (∀ (w : ZXingScannerComponent) (items : List FormatEntry),
      (set_formats w (.array items)).thrown = none) := by
  refine ⟨by decide, by decide, by decide, by decide, by decide, by decide, ?_⟩
  intro w items
  rfl

/-- C28, the code at the failing inputs: a fatal error that reaches the callback while the start
of the session is still pending makes the callback raise, because no handle is stored yet; and
while a first fatal error on a started session raises nothing, a second one raises, because the
first cleared the stored handle. -/
theorem callback_raises_without_stored_handle :
    pendingA.sessions.map (fun s => s.phase) = [.pending] ∧
    (decodeCallback pendingA 0 none (some deviceLost)).thrown = some undefinedStop ∧
    (decodeCallback scanningA 0 none (some deviceLost)).thrown = none ∧
    (decodeCallback faultedA 0 none (some deviceLost)).thrown = some undefinedStop ∧
    (decodeCallback faultedA 0 none (some deviceLost)).state = faultedA := by
  refine ⟨by decide, by decide, by decide, by decide, by decide⟩

/-- C29 as stated fails: when the start of session 0 on A succeeds, the stream has pushed
nothing (no callback has been invoked), yet the component emits `undefined` on `scanFailure` and
on `scanComplete`: subscribing replays the initial value of the stream. -/
theorem start_emits_before_first_callback :
    pendingA.sessions.map (fun s => s.scan.value) = [⟨none, none⟩] ∧
    streamOf 0 scanningA.log = [] ∧
    scanningA.log = pendingA.log ++ [Action.emit (.scanFailure none),
      Action.emit (.scanComplete none), Action.emit (.torchCompatible false)] :=
  ⟨by decide, by decide, by decide⟩

/-- C29, amended. When the start of a session succeeds before any callback was invoked (its
stream still holds the initial value and is open and unobserved), `scanFromDevice` raises
nothing, subscribes, and emits exactly `undefined` on `scanFailure`, `undefined` on
`scanComplete` and the torch support on `torchCompatible`: nothing on `scanSuccess`, and the
stream itself pushes no notification. -/
theorem start_replays_initial_value (w : ZXingScannerComponent) (sid : Nat) (s : Session)
    (ctrls : IScannerControls)
    (hs : w.sessions[sid]? = some s) (hrd : s.reader < w.readers.length)
    (hfresh : s.scan = ⟨⟨none, none⟩, false, none, false⟩) :
    (scanFromDevice_resume w sid (.ok ctrls)).thrown = none ∧
    (scanFromDevice_resume w sid (.ok ctrls)).state.log =
      w.log ++ [Action.emit (.scanFailure none), Action.emit (.scanComplete none),
        Action.emit (.torchCompatible ctrls.switchTorch)] ∧
    (scanFromDevice_resume w sid (.ok ctrls)).state._scanSubscription = some sid ∧
    streamOf sid (scanFromDevice_resume w sid (.ok ctrls)).state.log = streamOf sid w.log := by
  have hlt := lt_of_getElem?_eq_some hs
  obtain ⟨rd, dev, scan, ph, tc⟩ := s
  simp only at hfresh hrd
  subst hfresh
  have hctl : ZXingScannerComponent.scannerControls
      { w with readers := w.readers.set rd (some sid) } rd = some sid :=
    scannerControls_set_some w rd sid hrd
  simp only [ZXingScannerComponent.scannerControls] at hctl
  have key : scanFromDevice_resume w sid (.ok ctrls) =
      ⟨{ w with
          _scanSubscription := some sid
          sessions := w.sessions.set sid
            ⟨rd, dev, ⟨⟨none, none⟩, false, none, true⟩, .started, ctrls.switchTorch⟩
          readers := w.readers.set rd (some sid)
          log := w.log ++ [Action.emit (.scanFailure none), Action.emit (.scanComplete none),
            Action.emit (.torchCompatible ctrls.switchTorch)] }, none⟩ := by
    simp [scanFromDevice_resume, scanFromDeviceObservable_resume, hs, hlt, subscribe,
      _onDecodeResult, dispatchScanFailure, dispatchScanComplete, getScannerControls,
      ZXingScannerComponent.scannerControls, hasTorchControl, ZXingScannerComponent.record, hctl]
  rw [key]
  refine ⟨rfl, rfl, rfl, ?_⟩
  simp [streamOf]

/-- C29, amended, at `pendingA`. -/
theorem start_replays_initial_value_witness :
    pendingA.sessions[0]? = some sessionPendingA ∧
    sessionPendingA.reader < pendingA.readers.length ∧
    (scanFromDevice_resume pendingA 0 (.ok ⟨true⟩)).state.log =
      pendingA.log ++ [Action.emit (.scanFailure none), Action.emit (.scanComplete none),
        Action.emit (.torchCompatible true)] :=
  ⟨by decide, by decide,
    (start_replays_initial_value pendingA 0 sessionPendingA ⟨true⟩ (by decide) (by decide)
      rfl).2.1⟩

/-- C30 as stated fails: on a new component the permission request fails with `NotFoundError`,
a classified failure that is neither a refusal by the user nor unrecognised; the error is
delivered on `permissionResponse`, which terminates it. A later request is granted and sets the
permission to `true`, but nothing is delivered on `permissionResponse`. -/
theorem later_permission_not_delivered :
    notFoundError.name = "NotFoundError" ∧
    (askForPermission_resume askingPermission (.error notFoundError)).2 = none ∧
    Action.emit (.permissionResponseError notFoundError) ∈
      (askForPermission_resume askingPermission (.error notFoundError)).1.log ∧
    grantedAfterNotFound.hasPermission = some true ∧
    grantedAfterNotFound.log.drop
        (askForPermission_resume askingPermission (.error notFoundError)).1.log.length =
      [Action.getUserMedia, Action.terminateStream] ∧
    Action.emit (.permissionResponse (some true)) ∉ grantedAfterNotFound.log :=
  ⟨by decide, by decide, by decide, by decide, by decide, by decide⟩

/-- C30, amended. Every permission failure, of whatever kind, terminates the
`permissionResponse` channel: `handlePermissionException` delivers the permission value and
then the error on it, once, unless an earlier failure had terminated it already; after that a
later `setPermission` still updates the permission state but delivers nothing. -/
theorem permission_failure_terminates_channel (w : ZXingScannerComponent) (err : JsError) :
    (handlePermissionException w err).1.permissionResponseStopped = true ∧
    (w.permissionResponseStopped = false →
      ∃ pre, (handlePermissionException w err).1.log =
        w.log ++ pre ++ [Action.emit (.permissionResponse (handlePermissionException w err).2),
          Action.emit (.permissionResponseError err)] ∧
        ∀ e, Action.emit (.permissionResponseError e) ∉ pre) ∧
    (∀ p, setPermission (handlePermissionException w err).1 p =
      { (handlePermissionException w err).1 with hasPermission := p }) := by
  rw [handlePermissionException_eq]
  refine ⟨rfl, ?_, ?_⟩
  · intro hst
    refine ⟨Action.consoleError "@zxing/ngx-scanner Error when asking for permission." ::
      (permissionEffects err).1, by simp [hst], ?_⟩
    intro e
    simp only [permissionEffects]
    split_ifs <;> simp
  · intro p
    simp [setPermission]

/-- C30, amended, at the first permission request of a new component failing with
`NotFoundError`. -/
theorem permission_failure_terminates_channel_witness :
    askingPermission.permissionResponseStopped = false ∧
    (handlePermissionException askingPermission notFoundError).1.permissionResponseStopped = true ∧
    (∃ pre, (handlePermissionException askingPermission notFoundError).1.log =
        askingPermission.log ++ pre ++
          [Action.emit (.permissionResponse (handlePermissionException askingPermission
            notFoundError).2), Action.emit (.permissionResponseError notFoundError)] ∧
        ∀ e, Action.emit (.permissionResponseError e) ∉ pre) :=
  ⟨by decide, (permission_failure_terminates_channel askingPermission notFoundError).1,
    (permission_failure_terminates_channel askingPermission notFoundError).2.1 (by decide)⟩

/-! ## Sessions the component no longer reaches -/

/-- C2 as stated fails: in `twoSessions` sessions 0 and 1 have both started on the same reader
and their streams are open, and the reader stores the handle of session 1. A fatal error in
the callback of session 0 terminates the stream of session 0 with that error, but the `stop()`
it invokes is that of session 1, whose stream is completed; the handle of session 0 is never
stopped. -/
theorem fatal_error_stops_other_handle :
    twoSessions.sessions.map (fun s => (s.phase, s.scan.isStopped)) =
      [(.started, false), (.started, false)] ∧
    twoSessions.scannerControls 0 = some 1 ∧
    (decodeCallback twoSessions 0 none (some deviceLost)).thrown = none ∧
    (decodeCallback twoSessions 0 none (some deviceLost)).state.log =
      twoSessions.log ++ [Action.stream 0 (.error deviceLost),
        Action.consoleError "zxing scanner component: NotReadableError",
        Action.consoleWarn "Use the `(scanError)` property to handle errors like this!",
        Action.emit (.scanError deviceLost), Action.ctrlsStop 1, Action.stream 1 .complete] ∧
    (decodeCallback twoSessions 0 none (some deviceLost)).state.log.count (Action.ctrlsStop 0)
      = 0 ∧
    activeSessions (decodeCallback twoSessions 0 none (some deviceLost)).state = [0] :=
  ⟨by decide, by decide, by decide, by decide, by decide, by decide⟩

/-- C7, the code at the failing input: `restart()` while scanning on A only drops the code
reader, so the session on A keeps running with its subscription held. `setDevice(B)` then does
not throw and requests the start on B after `torchCompatible(false)` alone: `stop()` of the
handle of A is not invoked and its stream stays open, because `scanStop` reaches the handle
only through the code reader. Once the start on B succeeds, two sessions are started and
neither is stopped. -/
theorem setDevice_after_restart_leaves_session_running :
    restart scanningA = readerDropped ∧
    readerDropped._scanSubscription = some 0 ∧ readerDropped._device = some camA ∧
    activeSessions readerDropped = [0] ∧
    (setDevice readerDropped (some camB)).thrown = none ∧
    (setDevice readerDropped (some camB)).state.log =
      readerDropped.log ++ [Action.emit (.torchCompatible false),
        Action.decodeFromVideoDevice 1 "B"] ∧
    (setDevice readerDropped (some camB)).state.sessions.map
      (fun s => (s.deviceId, s.phase, s.scan.isStopped)) =
      [("A", .started, false), ("B", .pending, false)] ∧
    activeSessions (scanFromDevice_resume (setDevice readerDropped (some camB)).state 1
      (.ok ⟨false⟩)).state = [0, 1] :=
  ⟨by decide, by decide, by decide, by decide, by decide, by decide, by decide, by decide⟩

/-- C18, the code at the failing input: after a fatal decode fault while scanning on A the
stream of the session is terminated, its handle has been stopped and the reader stores none, so
no session is active; device A is selected. Yet `scanStart` throws
`There is already a scan process running.` and changes nothing, because the component still
holds the subscription. -/
theorem scanStart_refuses_after_fault :
    faultedA.sessions.map (fun s => (s.phase, s.scan.isStopped)) = [(.started, true)] ∧
    Action.ctrlsStop 0 ∈ faultedA.log ∧ activeSessions faultedA = [] ∧
    faultedA.scannerControls 0 = none ∧ faultedA._device = some camA ∧
    (scanStart faultedA).thrown = some alreadyScanning ∧
    (scanStart faultedA).state = faultedA :=
  ⟨by decide, by decide, by decide, by decide, by decide, by decide, by decide⟩

end NgxScanner
